import Mathlib

/-!
Shallow embedding of src/models/resnet.py.

The file models the repository at two levels:

* A shape-level semantics: every layer (convolution, batch normalization,
  pooling, flatten, linear, tensor slicing, concatenation, residual sum)
  is a function from tensor shapes, in (batch, channel, height, width)
  order, to Option of a shape; none models the tensor engine raising a
  shape error.  The six networks and their blocks are the compositions
  written in the source.

* A value-level semantics over rational-valued tensors, used for the
  claims about the ConvNeXt block being an identity at construction and
  about evaluation-mode determinism of forward.
-/

/-- A 4-dimensional tensor shape in (batch, channel, height, width) order. -/
structure Shape4 where
  n : Nat
  c : Nat
  h : Nat
  w : Nat
deriving DecidableEq, Repr

/-- Output spatial size of a convolution along one axis:
floor((size + 2*padding - kernel) / stride) + 1. -/
def convOut (size k s p : Nat) : Nat := (size + 2 * p - k) / s + 1

/-- Shape semantics of torch.nn.Conv2d(cin, cout, kernel_size=k, stride=s,
padding=p, groups=g).  The engine raises (none) when the input channel
count differs from cin, when the padded input is smaller than the kernel,
or when the group count does not divide the channel counts. -/
def conv2dShape (cin cout k s p g : Nat) (x : Shape4) : Option Shape4 :=
  if x.c = cin ∧ k ≤ x.h + 2 * p ∧ k ≤ x.w + 2 * p ∧ cin % g = 0 ∧ cout % g = 0 then
    some ⟨x.n, cout, convOut x.h k s p, convOut x.w k s p⟩
  else none

/-- Shape semantics of torch.nn.BatchNorm2d(c): shape preserved, channel
count must match. -/
def batchNorm2dShape (c : Nat) (x : Shape4) : Option Shape4 :=
  if x.c = c then some x else none

/-- torch.nn.ReLU is elementwise: shape preserved. -/
def reluShape (x : Shape4) : Option Shape4 := some x

/-- torch.nn.GELU is elementwise: shape preserved. -/
def geluShape (x : Shape4) : Option Shape4 := some x

/-- torch.nn.AdaptiveAvgPool2d((oh, ow)): any nonempty spatial input is
pooled to oh x ow. -/
def adaptiveAvgPool2dShape (oh ow : Nat) (x : Shape4) : Option Shape4 :=
  if 1 ≤ x.h ∧ 1 ≤ x.w then some ⟨x.n, x.c, oh, ow⟩ else none

/-- torch.nn.AvgPool2d(k) (stride defaults to k): output spatial size
(size - k)/k + 1; the engine rejects inputs smaller than k. -/
def avgPool2dShape (k : Nat) (x : Shape4) : Option Shape4 :=
  if k ≤ x.h ∧ k ≤ x.w then
    some ⟨x.n, x.c, (x.h - k) / k + 1, (x.w - k) / k + 1⟩
  else none

/-- Python slicing x[:, :, ::s, ::s]: spatial sizes become ceil(size/s). -/
def sliceShape (s : Nat) (x : Shape4) : Shape4 :=
  ⟨x.n, x.c, (x.h + s - 1) / s, (x.w + s - 1) / s⟩

/-- The elementwise residual sum a + b: shapes must agree exactly,
otherwise the engine raises. -/
def addShape (a b : Shape4) : Option Shape4 :=
  if a = b then some a else none

/-- torch.nn.Flatten on (n, c, h, w) gives the 2-dimensional shape
(n, c*h*w). -/
def flattenShape (x : Shape4) : Nat × Nat := (x.n, x.c * x.h * x.w)

/-- torch.nn.Linear(fin, fout) on a 2-dimensional input (n, f): requires
f = fin. -/
def linearShape (fin fout : Nat) (p : Nat × Nat) : Option (Nat × Nat) :=
  if p.2 = fin then some (p.1, fout) else none

namespace ResBlock

/-- The two `nn.Identity` / `nn.Sequential(conv1x1, bn)` alternatives the
constructor stores in `self.downsample`. -/
inductive Shortcut where
  | identity
  | proj
deriving DecidableEq, Repr

/-- Configuration stored by ResBlock.__init__. -/
structure Cfg where
  in_channel : Nat
  out_channel : Nat
  is_downsample : Bool
deriving DecidableEq, Repr

/-- ResBlock.__init__ records the arguments; no validation is performed. -/
def init (in_channel out_channel : Nat) (is_downsample : Bool) : Cfg :=
  ⟨in_channel, out_channel, is_downsample⟩

/-- `stride = 2 if is_downsample else 1`. -/
def Cfg.stride (c : Cfg) : Nat := if c.is_downsample then 2 else 1

/-- The constructor's branch: `self.downsample` is the 1x1-conv + BN
sequential when `is_downsample`, else `nn.Identity()`. -/
def Cfg.shortcutKind (c : Cfg) : Shortcut :=
  if c.is_downsample then .proj else .identity

/-- Shape semantics of `self.seq`: conv3x3(stride) - BN - ReLU -
conv3x3(1) - BN. -/
def mainShape (c : Cfg) (x : Shape4) : Option Shape4 :=
  conv2dShape c.in_channel c.out_channel 3 c.stride 1 1 x >>=
    batchNorm2dShape c.out_channel >>= reluShape >>=
    conv2dShape c.out_channel c.out_channel 3 1 1 1 >>=
    batchNorm2dShape c.out_channel

/-- Shape semantics of `self.downsample`. -/
def shortcutShape (c : Cfg) (x : Shape4) : Option Shape4 :=
  match c.shortcutKind with
  | .identity => some x
  | .proj =>
      conv2dShape c.in_channel c.out_channel 1 c.stride 0 1 x >>=
        batchNorm2dShape c.out_channel

/-- ResBlock.forward: relu(seq(x) + downsample(x)). -/
def forward (c : Cfg) (x : Shape4) : Option Shape4 :=
  mainShape c x >>= fun a =>
    shortcutShape c x >>= fun b => addShape a b >>= reluShape

end ResBlock

namespace Resnet18

/-- Shape semantics of Resnet18.self.seq (stem, eight ResBlocks, adaptive
average pooling to 1x1). -/
def seqShape (x : Shape4) : Option Shape4 :=
  conv2dShape 3 64 3 1 1 1 x >>= batchNorm2dShape 64 >>= reluShape >>=
    ResBlock.forward (ResBlock.init 64 64 false) >>=
    ResBlock.forward (ResBlock.init 64 64 false) >>=
    ResBlock.forward (ResBlock.init 64 128 true) >>=
    ResBlock.forward (ResBlock.init 128 128 false) >>=
    ResBlock.forward (ResBlock.init 128 256 true) >>=
    ResBlock.forward (ResBlock.init 256 256 false) >>=
    ResBlock.forward (ResBlock.init 256 512 true) >>=
    ResBlock.forward (ResBlock.init 512 512 false) >>=
    adaptiveAvgPool2dShape 1 1

/-- Resnet18.forward: out(flat(seq(x))). -/
def forward (class_num : Nat) (x : Shape4) : Option (Nat × Nat) :=
  seqShape x >>= fun y => linearShape 512 class_num (flattenShape y)

/-- Resnet18.extract_features: flat(seq(x)). -/
def extract_features (x : Shape4) : Option (Nat × Nat) :=
  seqShape x >>= fun y => some (flattenShape y)

end Resnet18

namespace ResBottleNeckBlock

/-- The two alternatives stored in `self.downsample`: the zero-padding
`self._identitymap` method, or `nn.Identity()`. -/
inductive Shortcut where
  | identitymap
  | identity
deriving DecidableEq, Repr

/-- Configuration stored by ResBottleNeckBlock.__init__ (the stride field
holds the resolved stride). -/
structure Cfg where
  in_channel : Nat
  out_channel : Nat
  is_downsample : Bool
  stride : Nat
deriving DecidableEq, Repr

/-- ResBottleNeckBlock.__init__: resolves the stride (explicit argument
wins; otherwise 2 when downsampling, else 1) and records the channel pair.
No validation of the channel pair is performed. -/
def init (in_channel out_channel : Nat) (is_downsample : Bool)
    (stride : Option Nat) : Cfg :=
  ⟨in_channel, out_channel, is_downsample,
    match stride with
    | none => if is_downsample then 2 else 1
    | some s => s⟩

/-- `mid_channel = out_channel // 4`. -/
def Cfg.mid_channel (c : Cfg) : Nat := c.out_channel / 4

/-- The constructor's branch: `self.downsample = self._identitymap` when
`is_downsample`, else `nn.Identity()`. -/
def Cfg.shortcutKind (c : Cfg) : Shortcut :=
  if c.is_downsample then .identitymap else .identity

/-- Shape semantics of `self.seq`: conv1x1 - BN - ReLU - conv3x3(stride) -
BN - ReLU - conv1x1 - BN. -/
def mainShape (c : Cfg) (x : Shape4) : Option Shape4 :=
  conv2dShape c.in_channel c.mid_channel 1 1 0 1 x >>=
    batchNorm2dShape c.mid_channel >>= reluShape >>=
    conv2dShape c.mid_channel c.mid_channel 3 c.stride 1 1 >>=
    batchNorm2dShape c.mid_channel >>= reluShape >>=
    conv2dShape c.mid_channel c.out_channel 1 1 0 1 >>=
    batchNorm2dShape c.out_channel

/-- ResBottleNeckBlock._identitymap: subsample spatially with
x[:, :, ::stride, ::stride], then concatenate x with zeros_like(x) along
the channel axis (out_channel // in_channel) // 2 times, doubling the
channel count each iteration. -/
def identitymapShape (c : Cfg) (x : Shape4) : Shape4 :=
  let y := sliceShape c.stride x
  ⟨y.n, y.c * 2 ^ ((c.out_channel / c.in_channel) / 2), y.h, y.w⟩

/-- Shape semantics of `self.downsample`. -/
def shortcutShape (c : Cfg) (x : Shape4) : Option Shape4 :=
  match c.shortcutKind with
  | .identity => some x
  | .identitymap => some (identitymapShape c x)

/-- ResBottleNeckBlock.forward: relu(seq(x) + downsample(x)). -/
def forward (c : Cfg) (x : Shape4) : Option Shape4 :=
  mainShape c x >>= fun a =>
    shortcutShape c x >>= fun b => addShape a b >>= reluShape

end ResBottleNeckBlock

namespace ResBottleNecknet18

/-- Shape semantics of ResBottleNecknet18.self.seq. -/
def seqShape (x : Shape4) : Option Shape4 :=
  conv2dShape 3 64 3 1 1 1 x >>= batchNorm2dShape 64 >>= reluShape >>=
    ResBottleNeckBlock.forward (ResBottleNeckBlock.init 64 256 true (some 1)) >>=
    ResBottleNeckBlock.forward (ResBottleNeckBlock.init 256 256 false none) >>=
    ResBottleNeckBlock.forward (ResBottleNeckBlock.init 256 512 true none) >>=
    ResBottleNeckBlock.forward (ResBottleNeckBlock.init 512 512 false none) >>=
    ResBottleNeckBlock.forward (ResBottleNeckBlock.init 512 1024 true none) >>=
    ResBottleNeckBlock.forward (ResBottleNeckBlock.init 1024 1024 false none) >>=
    ResBottleNeckBlock.forward (ResBottleNeckBlock.init 1024 2048 true none) >>=
    ResBottleNeckBlock.forward (ResBottleNeckBlock.init 2048 2048 false none) >>=
    avgPool2dShape 4

/-- ResBottleNecknet18.forward: out(flat(seq(x))). -/
def forward (class_num : Nat) (x : Shape4) : Option (Nat × Nat) :=
  seqShape x >>= fun y => linearShape 2048 class_num (flattenShape y)

/-- ResBottleNecknet18.extract_features: flat(seq(x)). -/
def extract_features (x : Shape4) : Option (Nat × Nat) :=
  seqShape x >>= fun y => some (flattenShape y)

end ResBottleNecknet18

namespace ResBottleNecknet50

/-- Shape semantics of ResBottleNecknet50.self.seq. -/
def seqShape (x : Shape4) : Option Shape4 :=
  conv2dShape 3 64 3 1 1 1 x >>= batchNorm2dShape 64 >>= reluShape >>=
    ResBottleNeckBlock.forward (ResBottleNeckBlock.init 64 256 true (some 1)) >>=
    ResBottleNeckBlock.forward (ResBottleNeckBlock.init 256 256 false none) >>=
    ResBottleNeckBlock.forward (ResBottleNeckBlock.init 256 256 false none) >>=
    ResBottleNeckBlock.forward (ResBottleNeckBlock.init 256 512 true none) >>=
    ResBottleNeckBlock.forward (ResBottleNeckBlock.init 512 512 false none) >>=
    ResBottleNeckBlock.forward (ResBottleNeckBlock.init 512 512 false none) >>=
    ResBottleNeckBlock.forward (ResBottleNeckBlock.init 512 512 false none) >>=
    ResBottleNeckBlock.forward (ResBottleNeckBlock.init 512 1024 true none) >>=
    ResBottleNeckBlock.forward (ResBottleNeckBlock.init 1024 1024 false none) >>=
    ResBottleNeckBlock.forward (ResBottleNeckBlock.init 1024 1024 false none) >>=
    ResBottleNeckBlock.forward (ResBottleNeckBlock.init 1024 1024 false none) >>=
    ResBottleNeckBlock.forward (ResBottleNeckBlock.init 1024 1024 false none) >>=
    ResBottleNeckBlock.forward (ResBottleNeckBlock.init 1024 1024 false none) >>=
    ResBottleNeckBlock.forward (ResBottleNeckBlock.init 1024 2048 true none) >>=
    ResBottleNeckBlock.forward (ResBottleNeckBlock.init 2048 2048 false none) >>=
    ResBottleNeckBlock.forward (ResBottleNeckBlock.init 2048 2048 false none) >>=
    avgPool2dShape 4

/-- ResBottleNecknet50.forward: out(flat(seq(x))). -/
def forward (class_num : Nat) (x : Shape4) : Option (Nat × Nat) :=
  seqShape x >>= fun y => linearShape 2048 class_num (flattenShape y)

/-- ResBottleNecknet50.extract_features: flat(seq(x)). -/
def extract_features (x : Shape4) : Option (Nat × Nat) :=
  seqShape x >>= fun y => some (flattenShape y)

end ResBottleNecknet50

namespace PreActResBlock

/-- The two alternatives stored in `self.downsample`. -/
inductive Shortcut where
  | identitymap
  | identity
deriving DecidableEq, Repr

/-- Configuration stored by PreActResBlock.__init__. -/
structure Cfg where
  in_channel : Nat
  out_channel : Nat
  is_downsample : Bool
deriving DecidableEq, Repr

/-- PreActResBlock.__init__ records the arguments. -/
def init (in_channel out_channel : Nat) (is_downsample : Bool) : Cfg :=
  ⟨in_channel, out_channel, is_downsample⟩

/-- `stride = 2 if is_downsample else 1`. -/
def Cfg.stride (c : Cfg) : Nat := if c.is_downsample then 2 else 1

/-- The constructor's branch for `self.downsample`. -/
def Cfg.shortcutKind (c : Cfg) : Shortcut :=
  if c.is_downsample then .identitymap else .identity

/-- Shape semantics of `self.seq`: BN - ReLU - conv3x3(stride) - BN -
ReLU - conv3x3(1). -/
def mainShape (c : Cfg) (x : Shape4) : Option Shape4 :=
  batchNorm2dShape c.in_channel x >>= reluShape >>=
    conv2dShape c.in_channel c.out_channel 3 c.stride 1 1 >>=
    batchNorm2dShape c.out_channel >>= reluShape >>=
    conv2dShape c.out_channel c.out_channel 3 1 1 1

/-- PreActResBlock._identitymap: x[:, :, ::2, ::2] then one concatenation
with zeros_like, doubling the channel count. -/
def identitymapShape (x : Shape4) : Shape4 :=
  let y := sliceShape 2 x
  ⟨y.n, y.c * 2, y.h, y.w⟩

/-- Shape semantics of `self.downsample`. -/
def shortcutShape (c : Cfg) (x : Shape4) : Option Shape4 :=
  match c.shortcutKind with
  | .identity => some x
  | .identitymap => some (identitymapShape x)

/-- PreActResBlock.forward: seq(x) + downsample(x), with no trailing
activation. -/
def forward (c : Cfg) (x : Shape4) : Option Shape4 :=
  mainShape c x >>= fun a =>
    shortcutShape c x >>= fun b => addShape a b

end PreActResBlock

namespace PreActResNet

/-- Shape semantics of PreActResNet.self.seq (stem without normalization,
eight PreActResBlocks, trailing ReLU, average pooling of kernel 4). -/
def seqShape (x : Shape4) : Option Shape4 :=
  conv2dShape 3 64 3 1 1 1 x >>= reluShape >>=
    PreActResBlock.forward (PreActResBlock.init 64 64 false) >>=
    PreActResBlock.forward (PreActResBlock.init 64 64 false) >>=
    PreActResBlock.forward (PreActResBlock.init 64 128 true) >>=
    PreActResBlock.forward (PreActResBlock.init 128 128 false) >>=
    PreActResBlock.forward (PreActResBlock.init 128 256 true) >>=
    PreActResBlock.forward (PreActResBlock.init 256 256 false) >>=
    PreActResBlock.forward (PreActResBlock.init 256 512 true) >>=
    PreActResBlock.forward (PreActResBlock.init 512 512 false) >>=
    reluShape >>= avgPool2dShape 4

/-- PreActResNet.forward: out(flat(seq(x))). -/
def forward (class_num : Nat) (x : Shape4) : Option (Nat × Nat) :=
  seqShape x >>= fun y => linearShape 512 class_num (flattenShape y)

/-- PreActResNet.extract_features: flat(seq(x)). -/
def extract_features (x : Shape4) : Option (Nat × Nat) :=
  seqShape x >>= fun y => some (flattenShape y)

end PreActResNet

namespace ResNextBlock

/-- The two `nn.Sequential(conv1x1, bn)` / `nn.Identity` alternatives the
constructor stores in `self.downsample`. -/
inductive Shortcut where
  | identity
  | proj
deriving DecidableEq, Repr

/-- Configuration stored by ResNextBlock.__init__ (the stride field holds
the resolved stride). -/
structure Cfg where
  in_channel : Nat
  inner_channel : Nat
  out_channel : Nat
  cardinality : Nat
  is_downsample : Bool
  stride : Nat
deriving DecidableEq, Repr

/-- ResNextBlock.__init__: resolves the stride (explicit argument wins;
otherwise 2 when downsampling, else 1). -/
def init (in_channel inner_channel out_channel cardinality : Nat)
    (is_downsample : Bool) (stride : Option Nat) : Cfg :=
  ⟨in_channel, inner_channel, out_channel, cardinality, is_downsample,
    match stride with
    | none => if is_downsample then 2 else 1
    | some s => s⟩

/-- The constructor's branch for `self.downsample`. -/
def Cfg.shortcutKind (c : Cfg) : Shortcut :=
  if c.is_downsample then .proj else .identity

/-- Shape semantics of `self.seq`: conv1x1 - BN - ReLU -
conv3x3(stride, groups=cardinality) - BN - ReLU - conv1x1 - BN. -/
def mainShape (c : Cfg) (x : Shape4) : Option Shape4 :=
  conv2dShape c.in_channel c.inner_channel 1 1 0 1 x >>=
    batchNorm2dShape c.inner_channel >>= reluShape >>=
    conv2dShape c.inner_channel c.inner_channel 3 c.stride 1 c.cardinality >>=
    batchNorm2dShape c.inner_channel >>= reluShape >>=
    conv2dShape c.inner_channel c.out_channel 1 1 0 1 >>=
    batchNorm2dShape c.out_channel

/-- Shape semantics of `self.downsample`. -/
def shortcutShape (c : Cfg) (x : Shape4) : Option Shape4 :=
  match c.shortcutKind with
  | .identity => some x
  | .proj =>
      conv2dShape c.in_channel c.out_channel 1 c.stride 0 1 x >>=
        batchNorm2dShape c.out_channel

/-- ResNextBlock.forward: relu(seq(x) + downsample(x)). -/
def forward (c : Cfg) (x : Shape4) : Option Shape4 :=
  mainShape c x >>= fun a =>
    shortcutShape c x >>= fun b => addShape a b >>= reluShape

end ResNextBlock

namespace ResNext

/-- Shape semantics of ResNext.self.seq (all blocks use the default
cardinality 32). -/
def seqShape (x : Shape4) : Option Shape4 :=
  conv2dShape 3 64 3 1 1 1 x >>= batchNorm2dShape 64 >>= reluShape >>=
    ResNextBlock.forward (ResNextBlock.init 64 128 256 32 true (some 1)) >>=
    ResNextBlock.forward (ResNextBlock.init 256 128 256 32 false none) >>=
    ResNextBlock.forward (ResNextBlock.init 256 256 512 32 true none) >>=
    ResNextBlock.forward (ResNextBlock.init 512 256 512 32 false none) >>=
    ResNextBlock.forward (ResNextBlock.init 512 512 1024 32 true none) >>=
    ResNextBlock.forward (ResNextBlock.init 1024 512 1024 32 false none) >>=
    ResNextBlock.forward (ResNextBlock.init 1024 1024 2048 32 true none) >>=
    ResNextBlock.forward (ResNextBlock.init 2048 1024 2048 32 false none) >>=
    avgPool2dShape 4

/-- ResNext.forward: out(flat(seq(x))). -/
def forward (class_num : Nat) (x : Shape4) : Option (Nat × Nat) :=
  seqShape x >>= fun y => linearShape 2048 class_num (flattenShape y)

/-- ResNext.extract_features: flat(seq(x)). -/
def extract_features (x : Shape4) : Option (Nat × Nat) :=
  seqShape x >>= fun y => some (flattenShape y)

end ResNext

namespace ConvNeXtblock

/-- x.permute(0, 2, 3, 1): (d0, d1, d2, d3) becomes (d0, d2, d3, d1). -/
def permute0231Shape (x : Shape4) : Shape4 := ⟨x.n, x.h, x.w, x.c⟩

/-- x.permute(0, 3, 1, 2): (d0, d1, d2, d3) becomes (d0, d3, d1, d2). -/
def permute0312Shape (x : Shape4) : Shape4 := ⟨x.n, x.w, x.c, x.h⟩

/-- torch.nn.LayerNorm(c) on a 4-dimensional input normalizes over the
last axis, which must have size c; shape preserved. -/
def layerNormShape (c : Nat) (x : Shape4) : Option Shape4 :=
  if x.w = c then some x else none

/-- Shape semantics of the ConvNeXtblock main path: depth-wise conv7x7
(padding 3, groups = channel) - permute to channel-last - LayerNorm -
permute back - pointwise conv to 4*channel - GELU - pointwise conv back
to channel. -/
def mainShape (channel : Nat) (x : Shape4) : Option Shape4 :=
  conv2dShape channel channel 7 1 3 channel x >>=
    (fun y => some (permute0231Shape y)) >>= layerNormShape channel >>=
    (fun y => some (permute0312Shape y)) >>=
    conv2dShape channel (channel * 4) 1 1 0 1 >>= geluShape >>=
    conv2dShape (channel * 4) channel 1 1 0 1

/-- ConvNeXtblock.forward: main path + residual. -/
def forward (channel : Nat) (x : Shape4) : Option Shape4 :=
  mainShape channel x >>= fun a => addShape a x

end ConvNeXtblock

namespace ConvNeXt

/-- Shape semantics of ConvNeXt.self.seq: a patchifying stem (kernel 2,
stride 2), stages of ConvNeXtblocks separated by stride-2 downsampling
convolutions, and average pooling of kernel 2. -/
def seqShape (x : Shape4) : Option Shape4 :=
  conv2dShape 3 96 2 2 0 1 x >>=
    ConvNeXtblock.forward 96 >>=
    ConvNeXtblock.forward 96 >>=
    conv2dShape 96 192 2 2 0 1 >>=
    ConvNeXtblock.forward 192 >>=
    ConvNeXtblock.forward 192 >>=
    conv2dShape 192 384 2 2 0 1 >>=
    ConvNeXtblock.forward 384 >>=
    ConvNeXtblock.forward 384 >>=
    ConvNeXtblock.forward 384 >>=
    ConvNeXtblock.forward 384 >>=
    ConvNeXtblock.forward 384 >>=
    ConvNeXtblock.forward 384 >>=
    conv2dShape 384 768 2 2 0 1 >>=
    ConvNeXtblock.forward 768 >>=
    ConvNeXtblock.forward 768 >>=
    avgPool2dShape 2

/-- ConvNeXt.forward: out(flat(seq(x))). -/
def forward (class_num : Nat) (x : Shape4) : Option (Nat × Nat) :=
  seqShape x >>= fun y => linearShape 768 class_num (flattenShape y)

/-- ConvNeXt.extract_features: flat(seq(x)). -/
def extract_features (x : Shape4) : Option (Nat × Nat) :=
  seqShape x >>= fun y => some (flattenShape y)

end ConvNeXt

/-!
Value-level semantics.  Tensors carry rational entries; the axes are kept
generic (s0..s3) because the ConvNeXt block temporarily permutes to
channel-last order.  Scalar functions the tensor engine computes with
irrational operations (the square root inside a normalization, the error
function inside GELU) are abstracted as function parameters; every claim
proved below holds for all choices of those functions.
-/

/-- A rational-valued 4-dimensional tensor: axis sizes and entries.
Entries at out-of-range indices are irrelevant junk carried by the
function representation. -/
@[ext]
structure TensorQ where
  s0 : Nat
  s1 : Nat
  s2 : Nat
  s3 : Nat
  data : Nat → Nat → Nat → Nat → ℚ

/-- The shape of a value-level tensor. -/
def TensorQ.shape (x : TensorQ) : Shape4 := ⟨x.s0, x.s1, x.s2, x.s3⟩

/-- Value semantics of torch.nn.Conv2d(cin, cout, kernel_size=k, stride=s,
padding=p, groups=g) with weight w (indexed output channel, in-group
channel, kernel row, kernel column) and per-output-channel bias: standard
cross-correlation over the zero-padded input. -/
def conv2dV (cin cout k s p g : Nat) (w : Nat → Nat → Nat → Nat → ℚ)
    (bias : Nat → ℚ) (x : TensorQ) : TensorQ :=
  ⟨x.s0, cout, convOut x.s2 k s p, convOut x.s3 k s p,
    fun b co i j =>
      bias co +
        ∑ ci ∈ Finset.range (cin / g), ∑ di ∈ Finset.range k,
          ∑ dj ∈ Finset.range k,
            w co ci di dj *
              (if p ≤ i * s + di ∧ i * s + di - p < x.s2 ∧
                  p ≤ j * s + dj ∧ j * s + dj - p < x.s3 then
                x.data b (co / (cout / g) * (cin / g) + ci)
                  (i * s + di - p) (j * s + dj - p)
              else 0)⟩

/-- Elementwise application of a scalar function (ReLU, GELU, ...). -/
def mapV (f : ℚ → ℚ) (x : TensorQ) : TensorQ :=
  ⟨x.s0, x.s1, x.s2, x.s3, fun b c i j => f (x.data b c i j)⟩

/-- Value semantics of torch.nn.ReLU. -/
def reluV (x : TensorQ) : TensorQ := mapV (fun q => max q 0) x

/-- x.permute(0, 2, 3, 1). -/
def permute0231V (x : TensorQ) : TensorQ :=
  ⟨x.s0, x.s2, x.s3, x.s1, fun a b c d => x.data a d b c⟩

/-- x.permute(0, 3, 1, 2). -/
def permute0312V (x : TensorQ) : TensorQ :=
  ⟨x.s0, x.s3, x.s1, x.s2, fun a b c d => x.data a c d b⟩

/-- The elementwise sum (a + b) of two tensors; every use below adds
operands of equal shape. -/
def addV (a b : TensorQ) : TensorQ :=
  ⟨a.s0, a.s1, a.s2, a.s3, fun i j k l => a.data i j k l + b.data i j k l⟩

/-- Python slicing x[:, :, ::s, ::s] on values. -/
def sliceV (s : Nat) (x : TensorQ) : TensorQ :=
  ⟨x.s0, x.s1, (x.s2 + s - 1) / s, (x.s3 + s - 1) / s,
    fun b c i j => x.data b c (i * s) (j * s)⟩

/-- torch.concat((x, torch.zeros_like(x)), dim=1) on values. -/
def concatZerosV (x : TensorQ) : TensorQ :=
  ⟨x.s0, x.s1 * 2, x.s2, x.s3,
    fun b c i j => if c < x.s1 then x.data b c i j else 0⟩

/-- torch.nn.AvgPool2d(k) on values (stride defaults to k). -/
def avgPool2dV (k : Nat) (x : TensorQ) : TensorQ :=
  ⟨x.s0, x.s1, (x.s2 - k) / k + 1, (x.s3 - k) / k + 1,
    fun b c i j =>
      (∑ di ∈ Finset.range k, ∑ dj ∈ Finset.range k,
        x.data b c (i * k + di) (j * k + dj)) / (k * k)⟩

/-- torch.nn.AdaptiveAvgPool2d((1, 1)) on values: the mean over the whole
spatial extent. -/
def adaptiveAvgPool2dV (x : TensorQ) : TensorQ :=
  ⟨x.s0, x.s1, 1, 1,
    fun b c _ _ =>
      (∑ i ∈ Finset.range x.s2, ∑ j ∈ Finset.range x.s3, x.data b c i j) /
        (x.s2 * x.s3)⟩

/-- torch.nn.Flatten on values: (n, c, h, w) to (n, c*h*w) (represented
with trailing singleton axes). -/
def flattenV (x : TensorQ) : TensorQ :=
  ⟨x.s0, x.s1 * x.s2 * x.s3, 1, 1,
    fun b f _ _ =>
      x.data b (f / (x.s2 * x.s3)) (f % (x.s2 * x.s3) / x.s3) (f % x.s3)⟩

/-- torch.nn.Linear(fin, fout) on values. -/
def linearV (fin fout : Nat) (w : Nat → Nat → ℚ) (bias : Nat → ℚ)
    (x : TensorQ) : TensorQ :=
  ⟨x.s0, fout, 1, 1,
    fun b o _ _ => bias o + ∑ f ∈ Finset.range fin, w o f * x.data b f 0 0⟩

namespace ConvNeXtblockV

/-- The modules and parameters a ConvNeXtblock owns.  The LayerNorm step
and the GELU scalar function are abstracted (their float formulas use
square roots and the error function); the claims below hold for every
choice. -/
structure Blk where
  channel : Nat
  depth_wise_weight : Nat → Nat → Nat → Nat → ℚ
  depth_wise_bias : Nat → ℚ
  norm : TensorQ → TensorQ
  point_wise1_weight : Nat → Nat → Nat → Nat → ℚ
  point_wise1_bias : Nat → ℚ
  gelu : ℚ → ℚ
  point_wise2_weight : Nat → Nat → Nat → Nat → ℚ
  point_wise2_bias : Nat → ℚ

/-- ConvNeXtblock.__init__: the depth-wise and first pointwise convolution
keep their (library-random) parameters, taken here as arguments, while
nn.init.zeros_ overwrites the final projection's weight and bias with
exact zeros. -/
def init (channel : Nat) (dww : Nat → Nat → Nat → Nat → ℚ)
    (dwb : Nat → ℚ) (norm : TensorQ → TensorQ)
    (pw1w : Nat → Nat → Nat → Nat → ℚ) (pw1b : Nat → ℚ)
    (gelu : ℚ → ℚ) : Blk :=
  ⟨channel, dww, dwb, norm, pw1w, pw1b, gelu,
    fun _ _ _ _ => 0, fun _ => 0⟩

/-- ConvNeXtblock.forward: depth-wise conv7x7 (padding 3,
groups = channel), permute to channel-last, LayerNorm, permute back,
pointwise expansion to 4*channel, GELU, pointwise contraction back to
channel, plus the residual. -/
def forward (m : Blk) (x : TensorQ) : TensorQ :=
  let residual := x
  let x1 := conv2dV m.channel m.channel 7 1 3 m.channel
    m.depth_wise_weight m.depth_wise_bias x
  let x2 := permute0231V x1
  let x3 := m.norm x2
  let x4 := permute0312V x3
  let x5 := conv2dV m.channel (m.channel * 4) 1 1 0 1
    m.point_wise1_weight m.point_wise1_bias x4
  let x6 := mapV m.gelu x5
  let x7 := conv2dV (m.channel * 4) m.channel 1 1 0 1
    m.point_wise2_weight m.point_wise2_bias x6
  addV x7 residual

end ConvNeXtblockV

/-!
Stateful semantics for the determinism claim.  The only stateful module
any of the six networks contains is torch.nn.BatchNorm2d, whose forward
in training mode updates its running-statistics buffers, and in
evaluation mode reads them without writing.  A network is represented as
a tree of stateless layers, batch-norm layers, sequential composition and
residual composition; running a network threads the list of per-layer
batch-norm buffers through it in order.  The elementwise evaluation-mode
normalization scalar ((v - mean)/sqrt(var + eps) * weight + bias, a float
computation with a square root) is abstracted as the function normE. -/

/-- Learnable per-channel parameters of a torch.nn.BatchNorm2d layer. -/
structure BNParams where
  weight : Nat → ℚ
  bias : Nat → ℚ

/-- Running-statistics buffers of a torch.nn.BatchNorm2d layer. -/
structure BNState where
  running_mean : Nat → ℚ
  running_var : Nat → ℚ

/-- Per-channel mean of a batch, over batch and spatial axes. -/
def batchMean (x : TensorQ) (c : Nat) : ℚ :=
  (∑ b ∈ Finset.range x.s0, ∑ i ∈ Finset.range x.s2,
    ∑ j ∈ Finset.range x.s3, x.data b c i j) / (x.s0 * x.s2 * x.s3)

/-- Per-channel variance of a batch, over batch and spatial axes. -/
def batchVar (x : TensorQ) (c : Nat) : ℚ :=
  (∑ b ∈ Finset.range x.s0, ∑ i ∈ Finset.range x.s2,
    ∑ j ∈ Finset.range x.s3, (x.data b c i j - batchMean x c) ^ 2) /
    (x.s0 * x.s2 * x.s3)

/-- Elementwise batch normalization with the given per-channel mean and
variance, through the abstract normalization scalar normE. -/
def bnApply (normE : ℚ → ℚ → ℚ → ℚ → ℚ → ℚ) (p : BNParams)
    (mean var : Nat → ℚ) (x : TensorQ) : TensorQ :=
  ⟨x.s0, x.s1, x.s2, x.s3,
    fun b c i j =>
      normE (x.data b c i j) (mean c) (var c) (p.weight c) (p.bias c)⟩

/-- A network as composed in the source: stateless layers, batch-norm
layers, sequential composition (nn.Sequential), and a residual fork whose
two results are summed and post-processed (the blocks' forward). -/
inductive Net where
  | layer (f : TensorQ → TensorQ)
  | bnorm (p : BNParams)
  | seq (a b : Net)
  | residual (main shortcut : Net) (post : TensorQ → TensorQ)

/-- Fold a list of subnetworks into nested sequential composition. -/
def seqList : List Net → Net
  | [] => .layer id
  | [a] => a
  | a :: b :: rest => .seq a (seqList (b :: rest))

/-- Run a network on an input, threading the batch-norm buffers (listed
in layer order) through it.  Returns the output, the updated buffers of
the layers that consumed one, and the unconsumed remainder.  In training
mode a batch-norm layer normalizes with batch statistics and writes back
exponentially-averaged buffers (momentum 0.1, the torch default); in
evaluation mode it normalizes with the stored buffers and returns them
unchanged. -/
def run (normE : ℚ → ℚ → ℚ → ℚ → ℚ → ℚ) (training : Bool) :
    Net → TensorQ → List BNState → TensorQ × List BNState × List BNState
  | .layer f, x, s => (f x, [], s)
  | .bnorm p, x, s =>
    match s with
    | [] => (x, [], [])
    | st :: rest =>
      if training then
        (bnApply normE p (batchMean x) (batchVar x) x,
          [⟨fun c => (9 / 10 : ℚ) * st.running_mean c +
              (1 / 10 : ℚ) * batchMean x c,
            fun c => (9 / 10 : ℚ) * st.running_var c +
              (1 / 10 : ℚ) * batchVar x c⟩],
          rest)
      else
        (bnApply normE p st.running_mean st.running_var x, [st], rest)
  | .seq a b, x, s =>
    let ra := run normE training a x s
    let rb := run normE training b ra.1 ra.2.2
    (rb.1, ra.2.1 ++ rb.2.1, rb.2.2)
  | .residual m sc post, x, s =>
    let rm := run normE training m x s
    let rsc := run normE training sc x rm.2.2
    (post (addV rm.1 rsc.1), rm.2.1 ++ rsc.2.1, rsc.2.2)

/-- Convolutions constructed with bias=False. -/
def noBias : Nat → ℚ := fun _ => 0

/-- Weights of the three convolutions and parameters of the three
batch-norm layers a ResBlock owns (projection-shortcut parameters
unused when the shortcut is the identity). -/
structure ResBlockPar where
  w1 : Nat → Nat → Nat → Nat → ℚ
  w2 : Nat → Nat → Nat → Nat → ℚ
  wp : Nat → Nat → Nat → Nat → ℚ
  b1 : BNParams
  b2 : BNParams
  bp : BNParams

/-- The ResBlock as a stateful network term. -/
def ResBlockNet (c : ResBlock.Cfg) (q : ResBlockPar) : Net :=
  .residual
    (seqList
      [.layer (conv2dV c.in_channel c.out_channel 3 c.stride 1 1 q.w1 noBias),
        .bnorm q.b1, .layer reluV,
        .layer (conv2dV c.out_channel c.out_channel 3 1 1 1 q.w2 noBias),
        .bnorm q.b2])
    (match c.shortcutKind with
      | .identity => .layer id
      | .proj =>
          seqList
            [.layer (conv2dV c.in_channel c.out_channel 1 c.stride 0 1
                q.wp noBias),
              .bnorm q.bp])
    reluV

/-- ResBottleNeckBlock._identitymap on values: strided slicing, then
(out_channel // in_channel) // 2 concatenations with zeros. -/
def ResBottleNeckBlock.identitymapV (c : ResBottleNeckBlock.Cfg)
    (x : TensorQ) : TensorQ :=
  concatZerosV^[(c.out_channel / c.in_channel) / 2] (sliceV c.stride x)

/-- Weights and batch-norm parameters a ResBottleNeckBlock owns. -/
structure ResBottleNeckBlockPar where
  w1 : Nat → Nat → Nat → Nat → ℚ
  w2 : Nat → Nat → Nat → Nat → ℚ
  w3 : Nat → Nat → Nat → Nat → ℚ
  b1 : BNParams
  b2 : BNParams
  b3 : BNParams

/-- The ResBottleNeckBlock as a stateful network term. -/
def ResBottleNeckBlockNet (c : ResBottleNeckBlock.Cfg)
    (q : ResBottleNeckBlockPar) : Net :=
  .residual
    (seqList
      [.layer (conv2dV c.in_channel c.mid_channel 1 1 0 1 q.w1 noBias),
        .bnorm q.b1, .layer reluV,
        .layer (conv2dV c.mid_channel c.mid_channel 3 c.stride 1 1 q.w2 noBias),
        .bnorm q.b2, .layer reluV,
        .layer (conv2dV c.mid_channel c.out_channel 1 1 0 1 q.w3 noBias),
        .bnorm q.b3])
    (match c.shortcutKind with
      | .identity => .layer id
      | .identitymap => .layer (ResBottleNeckBlock.identitymapV c))
    reluV

/-- PreActResBlock._identitymap on values: stride-2 slicing then one
concatenation with zeros. -/
def PreActResBlock.identitymapV (x : TensorQ) : TensorQ :=
  concatZerosV (sliceV 2 x)

/-- Weights and batch-norm parameters a PreActResBlock owns. -/
structure PreActResBlockPar where
  w1 : Nat → Nat → Nat → Nat → ℚ
  w2 : Nat → Nat → Nat → Nat → ℚ
  b1 : BNParams
  b2 : BNParams

/-- The PreActResBlock as a stateful network term (no activation after
the residual sum). -/
def PreActResBlockNet (c : PreActResBlock.Cfg) (q : PreActResBlockPar) :
    Net :=
  .residual
    (seqList
      [.bnorm q.b1, .layer reluV,
        .layer (conv2dV c.in_channel c.out_channel 3 c.stride 1 1 q.w1 noBias),
        .bnorm q.b2, .layer reluV,
        .layer (conv2dV c.out_channel c.out_channel 3 1 1 1 q.w2 noBias)])
    (match c.shortcutKind with
      | .identity => .layer id
      | .identitymap => .layer PreActResBlock.identitymapV)
    id

/-- Weights and batch-norm parameters a ResNextBlock owns. -/
structure ResNextBlockPar where
  w1 : Nat → Nat → Nat → Nat → ℚ
  w2 : Nat → Nat → Nat → Nat → ℚ
  w3 : Nat → Nat → Nat → Nat → ℚ
  wp : Nat → Nat → Nat → Nat → ℚ
  b1 : BNParams
  b2 : BNParams
  b3 : BNParams
  bp : BNParams

/-- The ResNextBlock as a stateful network term (middle convolution
grouped by cardinality). -/
def ResNextBlockNet (c : ResNextBlock.Cfg) (q : ResNextBlockPar) : Net :=
  .residual
    (seqList
      [.layer (conv2dV c.in_channel c.inner_channel 1 1 0 1 q.w1 noBias),
        .bnorm q.b1, .layer reluV,
        .layer (conv2dV c.inner_channel c.inner_channel 3 c.stride 1
          c.cardinality q.w2 noBias),
        .bnorm q.b2, .layer reluV,
        .layer (conv2dV c.inner_channel c.out_channel 1 1 0 1 q.w3 noBias),
        .bnorm q.b3])
    (match c.shortcutKind with
      | .identity => .layer id
      | .proj =>
          seqList
            [.layer (conv2dV c.in_channel c.out_channel 1 c.stride 0 1
                q.wp noBias),
              .bnorm q.bp])
    reluV

/-- All parameters a Resnet18 owns. -/
structure Resnet18Par where
  stem : Nat → Nat → Nat → Nat → ℚ
  stembn : BNParams
  k1 : ResBlockPar
  k2 : ResBlockPar
  k3 : ResBlockPar
  k4 : ResBlockPar
  k5 : ResBlockPar
  k6 : ResBlockPar
  k7 : ResBlockPar
  k8 : ResBlockPar
  fc_weight : Nat → Nat → ℚ
  fc_bias : Nat → ℚ

/-- Resnet18 as a stateful network term (forward = seq then flatten then
the classifier). -/
def Resnet18.net (class_num : Nat) (P : Resnet18Par) : Net :=
  seqList
    [.layer (conv2dV 3 64 3 1 1 1 P.stem noBias), .bnorm P.stembn,
      .layer reluV,
      ResBlockNet (ResBlock.init 64 64 false) P.k1,
      ResBlockNet (ResBlock.init 64 64 false) P.k2,
      ResBlockNet (ResBlock.init 64 128 true) P.k3,
      ResBlockNet (ResBlock.init 128 128 false) P.k4,
      ResBlockNet (ResBlock.init 128 256 true) P.k5,
      ResBlockNet (ResBlock.init 256 256 false) P.k6,
      ResBlockNet (ResBlock.init 256 512 true) P.k7,
      ResBlockNet (ResBlock.init 512 512 false) P.k8,
      .layer adaptiveAvgPool2dV, .layer flattenV,
      .layer (linearV 512 class_num P.fc_weight P.fc_bias)]

/-- All parameters a ResBottleNecknet18 owns. -/
structure ResBottleNecknet18Par where
  stem : Nat → Nat → Nat → Nat → ℚ
  stembn : BNParams
  k1 : ResBottleNeckBlockPar
  k2 : ResBottleNeckBlockPar
  k3 : ResBottleNeckBlockPar
  k4 : ResBottleNeckBlockPar
  k5 : ResBottleNeckBlockPar
  k6 : ResBottleNeckBlockPar
  k7 : ResBottleNeckBlockPar
  k8 : ResBottleNeckBlockPar
  fc_weight : Nat → Nat → ℚ
  fc_bias : Nat → ℚ

/-- ResBottleNecknet18 as a stateful network term. -/
def ResBottleNecknet18.net (class_num : Nat) (P : ResBottleNecknet18Par) :
    Net :=
  seqList
    [.layer (conv2dV 3 64 3 1 1 1 P.stem noBias), .bnorm P.stembn,
      .layer reluV,
      ResBottleNeckBlockNet (ResBottleNeckBlock.init 64 256 true (some 1)) P.k1,
      ResBottleNeckBlockNet (ResBottleNeckBlock.init 256 256 false none) P.k2,
      ResBottleNeckBlockNet (ResBottleNeckBlock.init 256 512 true none) P.k3,
      ResBottleNeckBlockNet (ResBottleNeckBlock.init 512 512 false none) P.k4,
      ResBottleNeckBlockNet (ResBottleNeckBlock.init 512 1024 true none) P.k5,
      ResBottleNeckBlockNet (ResBottleNeckBlock.init 1024 1024 false none) P.k6,
      ResBottleNeckBlockNet (ResBottleNeckBlock.init 1024 2048 true none) P.k7,
      ResBottleNeckBlockNet (ResBottleNeckBlock.init 2048 2048 false none) P.k8,
      .layer (avgPool2dV 4), .layer flattenV,
      .layer (linearV 2048 class_num P.fc_weight P.fc_bias)]

/-- All parameters a ResBottleNecknet50 owns. -/
structure ResBottleNecknet50Par where
  stem : Nat → Nat → Nat → Nat → ℚ
  stembn : BNParams
  k1 : ResBottleNeckBlockPar
  k2 : ResBottleNeckBlockPar
  k3 : ResBottleNeckBlockPar
  k4 : ResBottleNeckBlockPar
  k5 : ResBottleNeckBlockPar
  k6 : ResBottleNeckBlockPar
  k7 : ResBottleNeckBlockPar
  k8 : ResBottleNeckBlockPar
  k9 : ResBottleNeckBlockPar
  k10 : ResBottleNeckBlockPar
  k11 : ResBottleNeckBlockPar
  k12 : ResBottleNeckBlockPar
  k13 : ResBottleNeckBlockPar
  k14 : ResBottleNeckBlockPar
  k15 : ResBottleNeckBlockPar
  k16 : ResBottleNeckBlockPar
  fc_weight : Nat → Nat → ℚ
  fc_bias : Nat → ℚ

/-- ResBottleNecknet50 as a stateful network term. -/
def ResBottleNecknet50.net (class_num : Nat) (P : ResBottleNecknet50Par) :
    Net :=
  seqList
    [.layer (conv2dV 3 64 3 1 1 1 P.stem noBias), .bnorm P.stembn,
      .layer reluV,
      ResBottleNeckBlockNet (ResBottleNeckBlock.init 64 256 true (some 1)) P.k1,
      ResBottleNeckBlockNet (ResBottleNeckBlock.init 256 256 false none) P.k2,
      ResBottleNeckBlockNet (ResBottleNeckBlock.init 256 256 false none) P.k3,
      ResBottleNeckBlockNet (ResBottleNeckBlock.init 256 512 true none) P.k4,
      ResBottleNeckBlockNet (ResBottleNeckBlock.init 512 512 false none) P.k5,
      ResBottleNeckBlockNet (ResBottleNeckBlock.init 512 512 false none) P.k6,
      ResBottleNeckBlockNet (ResBottleNeckBlock.init 512 512 false none) P.k7,
      ResBottleNeckBlockNet (ResBottleNeckBlock.init 512 1024 true none) P.k8,
      ResBottleNeckBlockNet (ResBottleNeckBlock.init 1024 1024 false none) P.k9,
      ResBottleNeckBlockNet (ResBottleNeckBlock.init 1024 1024 false none) P.k10,
      ResBottleNeckBlockNet (ResBottleNeckBlock.init 1024 1024 false none) P.k11,
      ResBottleNeckBlockNet (ResBottleNeckBlock.init 1024 1024 false none) P.k12,
      ResBottleNeckBlockNet (ResBottleNeckBlock.init 1024 1024 false none) P.k13,
      ResBottleNeckBlockNet (ResBottleNeckBlock.init 1024 2048 true none) P.k14,
      ResBottleNeckBlockNet (ResBottleNeckBlock.init 2048 2048 false none) P.k15,
      ResBottleNeckBlockNet (ResBottleNeckBlock.init 2048 2048 false none) P.k16,
      .layer (avgPool2dV 4), .layer flattenV,
      .layer (linearV 2048 class_num P.fc_weight P.fc_bias)]

/-- All parameters a PreActResNet owns. -/
structure PreActResNetPar where
  stem : Nat → Nat → Nat → Nat → ℚ
  k1 : PreActResBlockPar
  k2 : PreActResBlockPar
  k3 : PreActResBlockPar
  k4 : PreActResBlockPar
  k5 : PreActResBlockPar
  k6 : PreActResBlockPar
  k7 : PreActResBlockPar
  k8 : PreActResBlockPar
  fc_weight : Nat → Nat → ℚ
  fc_bias : Nat → ℚ

/-- PreActResNet as a stateful network term. -/
def PreActResNet.net (class_num : Nat) (P : PreActResNetPar) : Net :=
  seqList
    [.layer (conv2dV 3 64 3 1 1 1 P.stem noBias), .layer reluV,
      PreActResBlockNet (PreActResBlock.init 64 64 false) P.k1,
      PreActResBlockNet (PreActResBlock.init 64 64 false) P.k2,
      PreActResBlockNet (PreActResBlock.init 64 128 true) P.k3,
      PreActResBlockNet (PreActResBlock.init 128 128 false) P.k4,
      PreActResBlockNet (PreActResBlock.init 128 256 true) P.k5,
      PreActResBlockNet (PreActResBlock.init 256 256 false) P.k6,
      PreActResBlockNet (PreActResBlock.init 256 512 true) P.k7,
      PreActResBlockNet (PreActResBlock.init 512 512 false) P.k8,
      .layer reluV, .layer (avgPool2dV 4), .layer flattenV,
      .layer (linearV 512 class_num P.fc_weight P.fc_bias)]

/-- All parameters a ResNext owns. -/
structure ResNextPar where
  stem : Nat → Nat → Nat → Nat → ℚ
  stembn : BNParams
  k1 : ResNextBlockPar
  k2 : ResNextBlockPar
  k3 : ResNextBlockPar
  k4 : ResNextBlockPar
  k5 : ResNextBlockPar
  k6 : ResNextBlockPar
  k7 : ResNextBlockPar
  k8 : ResNextBlockPar
  fc_weight : Nat → Nat → ℚ
  fc_bias : Nat → ℚ

/-- ResNext as a stateful network term. -/
def ResNext.net (class_num : Nat) (P : ResNextPar) : Net :=
  seqList
    [.layer (conv2dV 3 64 3 1 1 1 P.stem noBias), .bnorm P.stembn,
      .layer reluV,
      ResNextBlockNet (ResNextBlock.init 64 128 256 32 true (some 1)) P.k1,
      ResNextBlockNet (ResNextBlock.init 256 128 256 32 false none) P.k2,
      ResNextBlockNet (ResNextBlock.init 256 256 512 32 true none) P.k3,
      ResNextBlockNet (ResNextBlock.init 512 256 512 32 false none) P.k4,
      ResNextBlockNet (ResNextBlock.init 512 512 1024 32 true none) P.k5,
      ResNextBlockNet (ResNextBlock.init 1024 512 1024 32 false none) P.k6,
      ResNextBlockNet (ResNextBlock.init 1024 1024 2048 32 true none) P.k7,
      ResNextBlockNet (ResNextBlock.init 2048 1024 2048 32 false none) P.k8,
      .layer (avgPool2dV 4), .layer flattenV,
      .layer (linearV 2048 class_num P.fc_weight P.fc_bias)]

/-- All parameters a ConvNeXt owns.  A ConvNeXt contains no BatchNorm2d
at all (its blocks use LayerNorm, which keeps no running statistics), so
its stateful term contains no bnorm node. -/
structure ConvNeXtPar where
  stem : Nat → Nat → Nat → Nat → ℚ
  m1 : ConvNeXtblockV.Blk
  m2 : ConvNeXtblockV.Blk
  d1w : Nat → Nat → Nat → Nat → ℚ
  d1b : Nat → ℚ
  m3 : ConvNeXtblockV.Blk
  m4 : ConvNeXtblockV.Blk
  d2w : Nat → Nat → Nat → Nat → ℚ
  d2b : Nat → ℚ
  m5 : ConvNeXtblockV.Blk
  m6 : ConvNeXtblockV.Blk
  m7 : ConvNeXtblockV.Blk
  m8 : ConvNeXtblockV.Blk
  m9 : ConvNeXtblockV.Blk
  m10 : ConvNeXtblockV.Blk
  d3w : Nat → Nat → Nat → Nat → ℚ
  d3b : Nat → ℚ
  m11 : ConvNeXtblockV.Blk
  m12 : ConvNeXtblockV.Blk
  fc_weight : Nat → Nat → ℚ
  fc_bias : Nat → ℚ

/-- ConvNeXt as a stateful network term. -/
def ConvNeXt.net (class_num : Nat) (P : ConvNeXtPar) : Net :=
  seqList
    [.layer (conv2dV 3 96 2 2 0 1 P.stem noBias),
      .layer (ConvNeXtblockV.forward P.m1),
      .layer (ConvNeXtblockV.forward P.m2),
      .layer (conv2dV 96 192 2 2 0 1 P.d1w P.d1b),
      .layer (ConvNeXtblockV.forward P.m3),
      .layer (ConvNeXtblockV.forward P.m4),
      .layer (conv2dV 192 384 2 2 0 1 P.d2w P.d2b),
      .layer (ConvNeXtblockV.forward P.m5),
      .layer (ConvNeXtblockV.forward P.m6),
      .layer (ConvNeXtblockV.forward P.m7),
      .layer (ConvNeXtblockV.forward P.m8),
      .layer (ConvNeXtblockV.forward P.m9),
      .layer (ConvNeXtblockV.forward P.m10),
      .layer (conv2dV 384 768 2 2 0 1 P.d3w P.d3b),
      .layer (ConvNeXtblockV.forward P.m11),
      .layer (ConvNeXtblockV.forward P.m12),
      .layer (avgPool2dV 2), .layer flattenV,
      .layer (linearV 768 class_num P.fc_weight P.fc_bias)]

/-- A predicate for the residual-sum precondition: the main path and the
shortcut produce the same shape, and that shape exists (the main path did
not fail). -/
def pathsAgree (m s : Option Shape4) : Prop := m = s ∧ m.isSome = true

/-!  Helper lemmas. -/

theorem one_le_succ (k : Nat) : 1 ≤ k + 1 := Nat.succ_le_succ (Nat.zero_le k)

theorem conv3x3s1_shape (cin cout n h w : Nat) (hh : 1 ≤ h) (hw : 1 ≤ w) :
    conv2dShape cin cout 3 1 1 1 ⟨n, cin, h, w⟩ = some ⟨n, cout, h, w⟩ := by
  show (if cin = cin ∧ 3 ≤ h + 2 * 1 ∧ 3 ≤ w + 2 * 1 ∧ cin % 1 = 0 ∧
      cout % 1 = 0 then
      some (⟨n, cout, convOut h 3 1 1, convOut w 3 1 1⟩ : Shape4)
    else none) = some (⟨n, cout, h, w⟩ : Shape4)
  rw [if_pos ⟨rfl, by omega, by omega, Nat.mod_one _, Nat.mod_one _⟩]
  simp only [convOut, Option.some.injEq, Shape4.mk.injEq, true_and, and_true]
  omega

theorem conv3x3s2_shape (cin cout n h w : Nat) (hh : 1 ≤ h) (hw : 1 ≤ w) :
    conv2dShape cin cout 3 2 1 1 ⟨n, cin, h, w⟩ =
      some ⟨n, cout, (h - 1) / 2 + 1, (w - 1) / 2 + 1⟩ := by
  show (if cin = cin ∧ 3 ≤ h + 2 * 1 ∧ 3 ≤ w + 2 * 1 ∧ cin % 1 = 0 ∧
      cout % 1 = 0 then
      some (⟨n, cout, convOut h 3 2 1, convOut w 3 2 1⟩ : Shape4)
    else none) = some (⟨n, cout, (h - 1) / 2 + 1, (w - 1) / 2 + 1⟩ : Shape4)
  rw [if_pos ⟨rfl, by omega, by omega, Nat.mod_one _, Nat.mod_one _⟩]
  simp only [convOut, Option.some.injEq, Shape4.mk.injEq, true_and, and_true]
  omega

theorem conv1x1s2_shape (cin cout n h w : Nat) (hh : 1 ≤ h) (hw : 1 ≤ w) :
    conv2dShape cin cout 1 2 0 1 ⟨n, cin, h, w⟩ =
      some ⟨n, cout, (h - 1) / 2 + 1, (w - 1) / 2 + 1⟩ := by
  show (if cin = cin ∧ 1 ≤ h + 2 * 0 ∧ 1 ≤ w + 2 * 0 ∧ cin % 1 = 0 ∧
      cout % 1 = 0 then
      some (⟨n, cout, convOut h 1 2 0, convOut w 1 2 0⟩ : Shape4)
    else none) = some (⟨n, cout, (h - 1) / 2 + 1, (w - 1) / 2 + 1⟩ : Shape4)
  rw [if_pos ⟨rfl, by omega, by omega, Nat.mod_one _, Nat.mod_one _⟩]
  simp only [convOut, Option.some.injEq, Shape4.mk.injEq, true_and, and_true]
  omega

theorem bn_shape (c n h w : Nat) :
    batchNorm2dShape c ⟨n, c, h, w⟩ = some ⟨n, c, h, w⟩ := by
  simp [batchNorm2dShape]

/-- A channel-preserving, non-downsampling ResBlock preserves the shape
of any nonempty input. -/
theorem ResBlock.forward_keep (c n h w : Nat) (hh : 1 ≤ h) (hw : 1 ≤ w) :
    ResBlock.forward (ResBlock.init c c false) ⟨n, c, h, w⟩ =
      some ⟨n, c, h, w⟩ := by
  simp [ResBlock.forward, ResBlock.mainShape, ResBlock.shortcutShape,
    ResBlock.init, ResBlock.Cfg.shortcutKind, ResBlock.Cfg.stride,
    conv3x3s1_shape, bn_shape, reluShape, addShape, hh, hw]

/-- A downsampling ResBlock maps any nonempty input to out_channel
channels at ceil(h/2) x ceil(w/2): the 3x3 stride-2 main convolution and
the 1x1 stride-2 projection shortcut produce the same spatial size. -/
theorem ResBlock.forward_down (cin cout n h w : Nat) (hh : 1 ≤ h)
    (hw : 1 ≤ w) :
    ResBlock.forward (ResBlock.init cin cout true) ⟨n, cin, h, w⟩ =
      some ⟨n, cout, (h - 1) / 2 + 1, (w - 1) / 2 + 1⟩ := by
  simp [ResBlock.forward, ResBlock.mainShape, ResBlock.shortcutShape,
    ResBlock.init, ResBlock.Cfg.shortcutKind, ResBlock.Cfg.stride,
    conv3x3s1_shape, conv3x3s2_shape, conv1x1s2_shape, bn_shape,
    reluShape, addShape, hh, hw, one_le_succ]

/-- Resnet18's feature pipeline accepts any nonempty spatial size and
always produces 512 channels at 1x1 (the last pooling is adaptive). -/
theorem Resnet18.seqShape_any (n h w : Nat) (hh : 1 ≤ h) (hw : 1 ≤ w) :
    Resnet18.seqShape ⟨n, 3, h, w⟩ = some ⟨n, 512, 1, 1⟩ := by
  simp [Resnet18.seqShape, conv3x3s1_shape, bn_shape, reluShape,
    ResBlock.forward_keep, ResBlock.forward_down, adaptiveAvgPool2dShape,
    hh, hw, one_le_succ]

set_option maxHeartbeats 2000000 in
theorem ResBottleNecknet18.seqShape_bn18_at32 (n : Nat) :
    ResBottleNecknet18.seqShape ⟨n, 3, 32, 32⟩ = some ⟨n, 2048, 1, 1⟩ := by
  simp [ResBottleNecknet18.seqShape,
    ResBottleNeckBlock.forward, ResBottleNeckBlock.mainShape,
    ResBottleNeckBlock.shortcutShape, ResBottleNeckBlock.identitymapShape,
    ResBottleNeckBlock.init, ResBottleNeckBlock.Cfg.shortcutKind,
    ResBottleNeckBlock.Cfg.mid_channel,
    conv2dShape, batchNorm2dShape, reluShape,
    avgPool2dShape, sliceShape, addShape,
    convOut, flattenShape, linearShape]

set_option maxHeartbeats 2000000 in
theorem ResBottleNecknet50.seqShape_bn50_at32 (n : Nat) :
    ResBottleNecknet50.seqShape ⟨n, 3, 32, 32⟩ = some ⟨n, 2048, 1, 1⟩ := by
  simp [ResBottleNecknet50.seqShape,
    ResBottleNeckBlock.forward, ResBottleNeckBlock.mainShape,
    ResBottleNeckBlock.shortcutShape, ResBottleNeckBlock.identitymapShape,
    ResBottleNeckBlock.init, ResBottleNeckBlock.Cfg.shortcutKind,
    ResBottleNeckBlock.Cfg.mid_channel,
    conv2dShape, batchNorm2dShape, reluShape,
    avgPool2dShape, sliceShape, addShape, convOut]

set_option maxHeartbeats 2000000 in
theorem PreActResNet.seqShape_preact_at32 (n : Nat) :
    PreActResNet.seqShape ⟨n, 3, 32, 32⟩ = some ⟨n, 512, 1, 1⟩ := by
  simp [PreActResNet.seqShape,
    PreActResBlock.forward, PreActResBlock.mainShape,
    PreActResBlock.shortcutShape, PreActResBlock.identitymapShape,
    PreActResBlock.init, PreActResBlock.Cfg.shortcutKind,
    PreActResBlock.Cfg.stride,
    conv2dShape, batchNorm2dShape, reluShape,
    avgPool2dShape, sliceShape, addShape, convOut]

set_option maxHeartbeats 2000000 in
theorem ResNext.seqShape_resnext_at32 (n : Nat) :
    ResNext.seqShape ⟨n, 3, 32, 32⟩ = some ⟨n, 2048, 1, 1⟩ := by
  simp [ResNext.seqShape,
    ResNextBlock.forward, ResNextBlock.mainShape,
    ResNextBlock.shortcutShape, ResNextBlock.init,
    ResNextBlock.Cfg.shortcutKind,
    conv2dShape, batchNorm2dShape, reluShape,
    avgPool2dShape, addShape, convOut]

set_option maxHeartbeats 2000000 in
theorem ConvNeXt.seqShape_convnext_at32 (n : Nat) :
    ConvNeXt.seqShape ⟨n, 3, 32, 32⟩ = some ⟨n, 768, 1, 1⟩ := by
  simp [ConvNeXt.seqShape,
    ConvNeXtblock.forward, ConvNeXtblock.mainShape,
    ConvNeXtblock.permute0231Shape, ConvNeXtblock.permute0312Shape,
    ConvNeXtblock.layerNormShape,
    conv2dShape, batchNorm2dShape, reluShape, geluShape,
    avgPool2dShape, addShape, convOut]

/-- In evaluation mode, running any network term leaves every batch-norm
buffer unchanged: the updated prefix rejoined with the unconsumed
remainder is the input buffer list. -/
theorem run_eval_state (normE : ℚ → ℚ → ℚ → ℚ → ℚ → ℚ) (net : Net) :
    ∀ (x : TensorQ) (s : List BNState),
      (run normE false net x s).2.1 ++ (run normE false net x s).2.2 = s := by
  induction net with
  | layer f => intro x s; simp [run]
  | bnorm p =>
      intro x s
      cases s with
      | nil => simp [run]
      | cons st rest => simp [run]
  | seq a b iha ihb =>
      intro x s
      simp only [run]
      rw [List.append_assoc, ihb, iha]
  | residual m sc post ihm ihsc =>
      intro x s
      simp only [run]
      rw [List.append_assoc, ihsc, ihm]

/-- Running a network term twice in evaluation mode, the second run
starting from the buffers left by the first, produces the same output
both times. -/
theorem run_eval_twice (normE : ℚ → ℚ → ℚ → ℚ → ℚ → ℚ) (net : Net)
    (x : TensorQ) (s : List BNState) :
    (run normE false net x
        ((run normE false net x s).2.1 ++ (run normE false net x s).2.2)).1 =
      (run normE false net x s).1 := by
  rw [run_eval_state]

/-!  Claim theorems. -/

/-- C1: each of the six networks, constructed with any class_num ≥ 1,
maps a batch of shape [N, 3, 32, 32] with N ≥ 1 to a tensor of shape
[N, class_num]. -/
theorem c1_forward_batch_shape (n cn : Nat) (hn : 1 ≤ n) (hcn : 1 ≤ cn) :
    Resnet18.forward cn ⟨n, 3, 32, 32⟩ = some (n, cn) ∧
    ResBottleNecknet18.forward cn ⟨n, 3, 32, 32⟩ = some (n, cn) ∧
    ResBottleNecknet50.forward cn ⟨n, 3, 32, 32⟩ = some (n, cn) ∧
    PreActResNet.forward cn ⟨n, 3, 32, 32⟩ = some (n, cn) ∧
    ResNext.forward cn ⟨n, 3, 32, 32⟩ = some (n, cn) ∧
    ConvNeXt.forward cn ⟨n, 3, 32, 32⟩ = some (n, cn) := by
  refine ⟨?_, ?_, ?_, ?_, ?_, ?_⟩
  · simp [Resnet18.forward, Resnet18.seqShape_any, flattenShape, linearShape]
  · simp [ResBottleNecknet18.forward, ResBottleNecknet18.seqShape_bn18_at32,
      flattenShape, linearShape]
  · simp [ResBottleNecknet50.forward, ResBottleNecknet50.seqShape_bn50_at32,
      flattenShape, linearShape]
  · simp [PreActResNet.forward, PreActResNet.seqShape_preact_at32,
      flattenShape, linearShape]
  · simp [ResNext.forward, ResNext.seqShape_resnext_at32, flattenShape, linearShape]
  · simp [ConvNeXt.forward, ConvNeXt.seqShape_convnext_at32, flattenShape, linearShape]

theorem c1_forward_batch_shape_witness :
    Resnet18.forward 10 ⟨1, 3, 32, 32⟩ = some (1, 10) ∧
    ResBottleNecknet18.forward 10 ⟨1, 3, 32, 32⟩ = some (1, 10) ∧
    ResBottleNecknet50.forward 10 ⟨1, 3, 32, 32⟩ = some (1, 10) ∧
    PreActResNet.forward 10 ⟨1, 3, 32, 32⟩ = some (1, 10) ∧
    ResNext.forward 10 ⟨1, 3, 32, 32⟩ = some (1, 10) ∧
    ConvNeXt.forward 10 ⟨1, 3, 32, 32⟩ = some (1, 10) :=
  c1_forward_batch_shape 1 10 (by decide) (by decide)

/-- C8: for the six networks in order (basic-18, bottleneck-18,
bottleneck-50, pre-activation, grouped-32, modern), extract_features on
[N, 3, 32, 32] returns a flattened vector of width 512, 2048, 2048, 512,
2048, 768 respectively. -/
theorem c8_extract_features_width (n : Nat) :
    Resnet18.extract_features ⟨n, 3, 32, 32⟩ = some (n, 512) ∧
    ResBottleNecknet18.extract_features ⟨n, 3, 32, 32⟩ = some (n, 2048) ∧
    ResBottleNecknet50.extract_features ⟨n, 3, 32, 32⟩ = some (n, 2048) ∧
    PreActResNet.extract_features ⟨n, 3, 32, 32⟩ = some (n, 512) ∧
    ResNext.extract_features ⟨n, 3, 32, 32⟩ = some (n, 2048) ∧
    ConvNeXt.extract_features ⟨n, 3, 32, 32⟩ = some (n, 768) := by
  refine ⟨?_, ?_, ?_, ?_, ?_, ?_⟩
  · simp [Resnet18.extract_features, Resnet18.seqShape_any, flattenShape]
  · simp [ResBottleNecknet18.extract_features,
      ResBottleNecknet18.seqShape_bn18_at32, flattenShape]
  · simp [ResBottleNecknet50.extract_features,
      ResBottleNecknet50.seqShape_bn50_at32, flattenShape]
  · simp [PreActResNet.extract_features, PreActResNet.seqShape_preact_at32,
      flattenShape]
  · simp [ResNext.extract_features, ResNext.seqShape_resnext_at32, flattenShape]
  · simp [ConvNeXt.extract_features, ConvNeXt.seqShape_convnext_at32, flattenShape]

/-- C9: in evaluation mode (batch normalization reading, not writing, its
running statistics; no randomness source in any layer) each of the six
networks maps equal inputs to equal outputs across two successive runs,
the second run starting from the buffers left by the first: forward is a
deterministic function of its input and parameters. -/
theorem c9_eval_forward_deterministic
    (normE : ℚ → ℚ → ℚ → ℚ → ℚ → ℚ) (cn : Nat)
    (P1 : Resnet18Par) (P2 : ResBottleNecknet18Par)
    (P3 : ResBottleNecknet50Par) (P4 : PreActResNetPar) (P5 : ResNextPar)
    (P6 : ConvNeXtPar) (x : TensorQ) (s : List BNState) :
    (run normE false (Resnet18.net cn P1) x
        ((run normE false (Resnet18.net cn P1) x s).2.1 ++
          (run normE false (Resnet18.net cn P1) x s).2.2)).1 =
      (run normE false (Resnet18.net cn P1) x s).1 ∧
    (run normE false (ResBottleNecknet18.net cn P2) x
        ((run normE false (ResBottleNecknet18.net cn P2) x s).2.1 ++
          (run normE false (ResBottleNecknet18.net cn P2) x s).2.2)).1 =
      (run normE false (ResBottleNecknet18.net cn P2) x s).1 ∧
    (run normE false (ResBottleNecknet50.net cn P3) x
        ((run normE false (ResBottleNecknet50.net cn P3) x s).2.1 ++
          (run normE false (ResBottleNecknet50.net cn P3) x s).2.2)).1 =
      (run normE false (ResBottleNecknet50.net cn P3) x s).1 ∧
    (run normE false (PreActResNet.net cn P4) x
        ((run normE false (PreActResNet.net cn P4) x s).2.1 ++
          (run normE false (PreActResNet.net cn P4) x s).2.2)).1 =
      (run normE false (PreActResNet.net cn P4) x s).1 ∧
    (run normE false (ResNext.net cn P5) x
        ((run normE false (ResNext.net cn P5) x s).2.1 ++
          (run normE false (ResNext.net cn P5) x s).2.2)).1 =
      (run normE false (ResNext.net cn P5) x s).1 ∧
    (run normE false (ConvNeXt.net cn P6) x
        ((run normE false (ConvNeXt.net cn P6) x s).2.1 ++
          (run normE false (ConvNeXt.net cn P6) x s).2.2)).1 =
      (run normE false (ConvNeXt.net cn P6) x s).1 :=
  ⟨run_eval_twice normE _ x s, run_eval_twice normE _ x s,
    run_eval_twice normE _ x s, run_eval_twice normE _ x s,
    run_eval_twice normE _ x s, run_eval_twice normE _ x s⟩

/-- C10: Resnet18 accepts any nonempty spatial size: forward returns
[N, class_num] and extract_features returns [N, 512] for every
[N, 3, H, W] with H, W ≥ 1 (every downsampling block maps H to ceil(H/2)
on both paths and the final pooling is adaptive); the other five
networks reject some spatial sizes, e.g. 1x1 (their fixed-kernel pooling
or patchifying stem fails there). -/
theorem c10_resnet18_any_spatial (n cn h w : Nat) (hh : 1 ≤ h)
    (hw : 1 ≤ w) :
    Resnet18.forward cn ⟨n, 3, h, w⟩ = some (n, cn) ∧
    Resnet18.extract_features ⟨n, 3, h, w⟩ = some (n, 512) ∧
    ResBottleNecknet18.forward 10 ⟨1, 3, 1, 1⟩ = none ∧
    ResBottleNecknet50.forward 10 ⟨1, 3, 1, 1⟩ = none ∧
    PreActResNet.forward 10 ⟨1, 3, 1, 1⟩ = none ∧
    ResNext.forward 10 ⟨1, 3, 1, 1⟩ = none ∧
    ConvNeXt.forward 10 ⟨1, 3, 1, 1⟩ = none := by
  refine ⟨?_, ?_, rfl, rfl, rfl, rfl, rfl⟩
  · simp [Resnet18.forward, Resnet18.seqShape_any, flattenShape,
      linearShape, hh, hw]
  · simp [Resnet18.extract_features, Resnet18.seqShape_any, flattenShape,
      hh, hw]

theorem c10_resnet18_any_spatial_witness :
    Resnet18.forward 10 ⟨1, 3, 7, 5⟩ = some (1, 10) ∧
    Resnet18.extract_features ⟨1, 3, 7, 5⟩ = some (1, 512) ∧
    ResBottleNecknet18.forward 10 ⟨1, 3, 1, 1⟩ = none ∧
    ResBottleNecknet50.forward 10 ⟨1, 3, 1, 1⟩ = none ∧
    PreActResNet.forward 10 ⟨1, 3, 1, 1⟩ = none ∧
    ResNext.forward 10 ⟨1, 3, 1, 1⟩ = none ∧
    ConvNeXt.forward 10 ⟨1, 3, 1, 1⟩ = none :=
  c10_resnet18_any_spatial 1 10 7 5 (by decide) (by decide)
/-- C3: for every block instance as configured inside the six network
assemblies (each distinct configuration-and-input-size pair listed once;
repeated instances are identical statements), feeding a tensor with the
block's declared in_channel count and the expected spatial size yields a
main-path output and a shortcut output of exactly equal, defined shape
before the element-wise residual sum.  For the ConvNeXt block the
shortcut is the untouched residual x itself. -/
theorem c3_paths_agree (n : Nat) :
    pathsAgree (ResBlock.mainShape (ResBlock.init 64 64 false) ⟨n, 64, 32, 32⟩)
      (ResBlock.shortcutShape (ResBlock.init 64 64 false) ⟨n, 64, 32, 32⟩) ∧
    pathsAgree (ResBlock.mainShape (ResBlock.init 64 128 true) ⟨n, 64, 32, 32⟩)
      (ResBlock.shortcutShape (ResBlock.init 64 128 true) ⟨n, 64, 32, 32⟩) ∧
    pathsAgree (ResBlock.mainShape (ResBlock.init 128 128 false) ⟨n, 128, 16, 16⟩)
      (ResBlock.shortcutShape (ResBlock.init 128 128 false) ⟨n, 128, 16, 16⟩) ∧
    pathsAgree (ResBlock.mainShape (ResBlock.init 128 256 true) ⟨n, 128, 16, 16⟩)
      (ResBlock.shortcutShape (ResBlock.init 128 256 true) ⟨n, 128, 16, 16⟩) ∧
    pathsAgree (ResBlock.mainShape (ResBlock.init 256 256 false) ⟨n, 256, 8, 8⟩)
      (ResBlock.shortcutShape (ResBlock.init 256 256 false) ⟨n, 256, 8, 8⟩) ∧
    pathsAgree (ResBlock.mainShape (ResBlock.init 256 512 true) ⟨n, 256, 8, 8⟩)
      (ResBlock.shortcutShape (ResBlock.init 256 512 true) ⟨n, 256, 8, 8⟩) ∧
    pathsAgree (ResBlock.mainShape (ResBlock.init 512 512 false) ⟨n, 512, 4, 4⟩)
      (ResBlock.shortcutShape (ResBlock.init 512 512 false) ⟨n, 512, 4, 4⟩) ∧
    pathsAgree (ResBottleNeckBlock.mainShape (ResBottleNeckBlock.init 64 256 true (some 1)) ⟨n, 64, 32, 32⟩)
      (ResBottleNeckBlock.shortcutShape (ResBottleNeckBlock.init 64 256 true (some 1)) ⟨n, 64, 32, 32⟩) ∧
    pathsAgree (ResBottleNeckBlock.mainShape (ResBottleNeckBlock.init 256 256 false none) ⟨n, 256, 32, 32⟩)
      (ResBottleNeckBlock.shortcutShape (ResBottleNeckBlock.init 256 256 false none) ⟨n, 256, 32, 32⟩) ∧
    pathsAgree (ResBottleNeckBlock.mainShape (ResBottleNeckBlock.init 256 512 true none) ⟨n, 256, 32, 32⟩)
      (ResBottleNeckBlock.shortcutShape (ResBottleNeckBlock.init 256 512 true none) ⟨n, 256, 32, 32⟩) ∧
    pathsAgree (ResBottleNeckBlock.mainShape (ResBottleNeckBlock.init 512 512 false none) ⟨n, 512, 16, 16⟩)
      (ResBottleNeckBlock.shortcutShape (ResBottleNeckBlock.init 512 512 false none) ⟨n, 512, 16, 16⟩) ∧
    pathsAgree (ResBottleNeckBlock.mainShape (ResBottleNeckBlock.init 512 1024 true none) ⟨n, 512, 16, 16⟩)
      (ResBottleNeckBlock.shortcutShape (ResBottleNeckBlock.init 512 1024 true none) ⟨n, 512, 16, 16⟩) ∧
    pathsAgree (ResBottleNeckBlock.mainShape (ResBottleNeckBlock.init 1024 1024 false none) ⟨n, 1024, 8, 8⟩)
      (ResBottleNeckBlock.shortcutShape (ResBottleNeckBlock.init 1024 1024 false none) ⟨n, 1024, 8, 8⟩) ∧
    pathsAgree (ResBottleNeckBlock.mainShape (ResBottleNeckBlock.init 1024 2048 true none) ⟨n, 1024, 8, 8⟩)
      (ResBottleNeckBlock.shortcutShape (ResBottleNeckBlock.init 1024 2048 true none) ⟨n, 1024, 8, 8⟩) ∧
    pathsAgree (ResBottleNeckBlock.mainShape (ResBottleNeckBlock.init 2048 2048 false none) ⟨n, 2048, 4, 4⟩)
      (ResBottleNeckBlock.shortcutShape (ResBottleNeckBlock.init 2048 2048 false none) ⟨n, 2048, 4, 4⟩) ∧
    pathsAgree (PreActResBlock.mainShape (PreActResBlock.init 64 64 false) ⟨n, 64, 32, 32⟩)
      (PreActResBlock.shortcutShape (PreActResBlock.init 64 64 false) ⟨n, 64, 32, 32⟩) ∧
    pathsAgree (PreActResBlock.mainShape (PreActResBlock.init 64 128 true) ⟨n, 64, 32, 32⟩)
      (PreActResBlock.shortcutShape (PreActResBlock.init 64 128 true) ⟨n, 64, 32, 32⟩) ∧
    pathsAgree (PreActResBlock.mainShape (PreActResBlock.init 128 128 false) ⟨n, 128, 16, 16⟩)
      (PreActResBlock.shortcutShape (PreActResBlock.init 128 128 false) ⟨n, 128, 16, 16⟩) ∧
    pathsAgree (PreActResBlock.mainShape (PreActResBlock.init 128 256 true) ⟨n, 128, 16, 16⟩)
      (PreActResBlock.shortcutShape (PreActResBlock.init 128 256 true) ⟨n, 128, 16, 16⟩) ∧
    pathsAgree (PreActResBlock.mainShape (PreActResBlock.init 256 256 false) ⟨n, 256, 8, 8⟩)
      (PreActResBlock.shortcutShape (PreActResBlock.init 256 256 false) ⟨n, 256, 8, 8⟩) ∧
    pathsAgree (PreActResBlock.mainShape (PreActResBlock.init 256 512 true) ⟨n, 256, 8, 8⟩)
      (PreActResBlock.shortcutShape (PreActResBlock.init 256 512 true) ⟨n, 256, 8, 8⟩) ∧
    pathsAgree (PreActResBlock.mainShape (PreActResBlock.init 512 512 false) ⟨n, 512, 4, 4⟩)
      (PreActResBlock.shortcutShape (PreActResBlock.init 512 512 false) ⟨n, 512, 4, 4⟩) ∧
    pathsAgree (ResNextBlock.mainShape (ResNextBlock.init 64 128 256 32 true (some 1)) ⟨n, 64, 32, 32⟩)
      (ResNextBlock.shortcutShape (ResNextBlock.init 64 128 256 32 true (some 1)) ⟨n, 64, 32, 32⟩) ∧
    pathsAgree (ResNextBlock.mainShape (ResNextBlock.init 256 128 256 32 false none) ⟨n, 256, 32, 32⟩)
      (ResNextBlock.shortcutShape (ResNextBlock.init 256 128 256 32 false none) ⟨n, 256, 32, 32⟩) ∧
    pathsAgree (ResNextBlock.mainShape (ResNextBlock.init 256 256 512 32 true none) ⟨n, 256, 32, 32⟩)
      (ResNextBlock.shortcutShape (ResNextBlock.init 256 256 512 32 true none) ⟨n, 256, 32, 32⟩) ∧
    pathsAgree (ResNextBlock.mainShape (ResNextBlock.init 512 256 512 32 false none) ⟨n, 512, 16, 16⟩)
      (ResNextBlock.shortcutShape (ResNextBlock.init 512 256 512 32 false none) ⟨n, 512, 16, 16⟩) ∧
    pathsAgree (ResNextBlock.mainShape (ResNextBlock.init 512 512 1024 32 true none) ⟨n, 512, 16, 16⟩)
      (ResNextBlock.shortcutShape (ResNextBlock.init 512 512 1024 32 true none) ⟨n, 512, 16, 16⟩) ∧
    pathsAgree (ResNextBlock.mainShape (ResNextBlock.init 1024 512 1024 32 false none) ⟨n, 1024, 8, 8⟩)
      (ResNextBlock.shortcutShape (ResNextBlock.init 1024 512 1024 32 false none) ⟨n, 1024, 8, 8⟩) ∧
    pathsAgree (ResNextBlock.mainShape (ResNextBlock.init 1024 1024 2048 32 true none) ⟨n, 1024, 8, 8⟩)
      (ResNextBlock.shortcutShape (ResNextBlock.init 1024 1024 2048 32 true none) ⟨n, 1024, 8, 8⟩) ∧
    pathsAgree (ResNextBlock.mainShape (ResNextBlock.init 2048 1024 2048 32 false none) ⟨n, 2048, 4, 4⟩)
      (ResNextBlock.shortcutShape (ResNextBlock.init 2048 1024 2048 32 false none) ⟨n, 2048, 4, 4⟩) ∧
    pathsAgree (ConvNeXtblock.mainShape 96 ⟨n, 96, 16, 16⟩) (some ⟨n, 96, 16, 16⟩) ∧
    pathsAgree (ConvNeXtblock.mainShape 192 ⟨n, 192, 8, 8⟩) (some ⟨n, 192, 8, 8⟩) ∧
    pathsAgree (ConvNeXtblock.mainShape 384 ⟨n, 384, 4, 4⟩) (some ⟨n, 384, 4, 4⟩) ∧
    pathsAgree (ConvNeXtblock.mainShape 768 ⟨n, 768, 2, 2⟩) (some ⟨n, 768, 2, 2⟩) := by
  simp [pathsAgree,
    ResBlock.mainShape, ResBlock.shortcutShape, ResBlock.init,
    ResBlock.Cfg.shortcutKind, ResBlock.Cfg.stride,
    ResBottleNeckBlock.mainShape, ResBottleNeckBlock.shortcutShape,
    ResBottleNeckBlock.identitymapShape, ResBottleNeckBlock.init,
    ResBottleNeckBlock.Cfg.shortcutKind, ResBottleNeckBlock.Cfg.mid_channel,
    PreActResBlock.mainShape, PreActResBlock.shortcutShape,
    PreActResBlock.identitymapShape, PreActResBlock.init,
    PreActResBlock.Cfg.shortcutKind, PreActResBlock.Cfg.stride,
    ResNextBlock.mainShape, ResNextBlock.shortcutShape, ResNextBlock.init,
    ResNextBlock.Cfg.shortcutKind,
    ConvNeXtblock.mainShape, ConvNeXtblock.permute0231Shape,
    ConvNeXtblock.permute0312Shape, ConvNeXtblock.layerNormShape,
    conv2dShape, batchNorm2dShape, reluShape, geluShape, sliceShape,
    convOut]

/-- C6 (amended): across the six networks, every block whose resolved
stride is 2 (is_downsample set with no explicit stride argument) maps
spatial size h to h/2, and every block whose resolved stride is 1 -
including the first bottleneck and first grouped block, which are
constructed with is_downsample=True but explicit stride=1 - preserves the
spatial size exactly (each distinct configuration-and-input-size pair
listed once). -/
theorem c6_amended_stride_semantics :
    ResBlock.forward (ResBlock.init 64 64 false) ⟨1, 64, 32, 32⟩ =
      some ⟨1, 64, 32, 32⟩ ∧
    ResBlock.forward (ResBlock.init 64 128 true) ⟨1, 64, 32, 32⟩ =
      some ⟨1, 128, 16, 16⟩ ∧
    ResBlock.forward (ResBlock.init 128 128 false) ⟨1, 128, 16, 16⟩ =
      some ⟨1, 128, 16, 16⟩ ∧
    ResBlock.forward (ResBlock.init 128 256 true) ⟨1, 128, 16, 16⟩ =
      some ⟨1, 256, 8, 8⟩ ∧
    ResBlock.forward (ResBlock.init 256 256 false) ⟨1, 256, 8, 8⟩ =
      some ⟨1, 256, 8, 8⟩ ∧
    ResBlock.forward (ResBlock.init 256 512 true) ⟨1, 256, 8, 8⟩ =
      some ⟨1, 512, 4, 4⟩ ∧
    ResBlock.forward (ResBlock.init 512 512 false) ⟨1, 512, 4, 4⟩ =
      some ⟨1, 512, 4, 4⟩ ∧
    ResBottleNeckBlock.forward (ResBottleNeckBlock.init 64 256 true (some 1))
      ⟨1, 64, 32, 32⟩ = some ⟨1, 256, 32, 32⟩ ∧
    ResBottleNeckBlock.forward (ResBottleNeckBlock.init 256 256 false none)
      ⟨1, 256, 32, 32⟩ = some ⟨1, 256, 32, 32⟩ ∧
    ResBottleNeckBlock.forward (ResBottleNeckBlock.init 256 512 true none)
      ⟨1, 256, 32, 32⟩ = some ⟨1, 512, 16, 16⟩ ∧
    ResBottleNeckBlock.forward (ResBottleNeckBlock.init 512 512 false none)
      ⟨1, 512, 16, 16⟩ = some ⟨1, 512, 16, 16⟩ ∧
    ResBottleNeckBlock.forward (ResBottleNeckBlock.init 512 1024 true none)
      ⟨1, 512, 16, 16⟩ = some ⟨1, 1024, 8, 8⟩ ∧
    ResBottleNeckBlock.forward (ResBottleNeckBlock.init 1024 1024 false none)
      ⟨1, 1024, 8, 8⟩ = some ⟨1, 1024, 8, 8⟩ ∧
    ResBottleNeckBlock.forward (ResBottleNeckBlock.init 1024 2048 true none)
      ⟨1, 1024, 8, 8⟩ = some ⟨1, 2048, 4, 4⟩ ∧
    ResBottleNeckBlock.forward (ResBottleNeckBlock.init 2048 2048 false none)
      ⟨1, 2048, 4, 4⟩ = some ⟨1, 2048, 4, 4⟩ ∧
    PreActResBlock.forward (PreActResBlock.init 64 64 false)
      ⟨1, 64, 32, 32⟩ = some ⟨1, 64, 32, 32⟩ ∧
    PreActResBlock.forward (PreActResBlock.init 64 128 true)
      ⟨1, 64, 32, 32⟩ = some ⟨1, 128, 16, 16⟩ ∧
    PreActResBlock.forward (PreActResBlock.init 128 128 false)
      ⟨1, 128, 16, 16⟩ = some ⟨1, 128, 16, 16⟩ ∧
    PreActResBlock.forward (PreActResBlock.init 128 256 true)
      ⟨1, 128, 16, 16⟩ = some ⟨1, 256, 8, 8⟩ ∧
    PreActResBlock.forward (PreActResBlock.init 256 256 false)
      ⟨1, 256, 8, 8⟩ = some ⟨1, 256, 8, 8⟩ ∧
    PreActResBlock.forward (PreActResBlock.init 256 512 true)
      ⟨1, 256, 8, 8⟩ = some ⟨1, 512, 4, 4⟩ ∧
    PreActResBlock.forward (PreActResBlock.init 512 512 false)
      ⟨1, 512, 4, 4⟩ = some ⟨1, 512, 4, 4⟩ ∧
    ResNextBlock.forward (ResNextBlock.init 64 128 256 32 true (some 1))
      ⟨1, 64, 32, 32⟩ = some ⟨1, 256, 32, 32⟩ ∧
    ResNextBlock.forward (ResNextBlock.init 256 128 256 32 false none)
      ⟨1, 256, 32, 32⟩ = some ⟨1, 256, 32, 32⟩ ∧
    ResNextBlock.forward (ResNextBlock.init 256 256 512 32 true none)
      ⟨1, 256, 32, 32⟩ = some ⟨1, 512, 16, 16⟩ ∧
    ResNextBlock.forward (ResNextBlock.init 512 256 512 32 false none)
      ⟨1, 512, 16, 16⟩ = some ⟨1, 512, 16, 16⟩ ∧
    ResNextBlock.forward (ResNextBlock.init 512 512 1024 32 true none)
      ⟨1, 512, 16, 16⟩ = some ⟨1, 1024, 8, 8⟩ ∧
    ResNextBlock.forward (ResNextBlock.init 1024 512 1024 32 false none)
      ⟨1, 1024, 8, 8⟩ = some ⟨1, 1024, 8, 8⟩ ∧
    ResNextBlock.forward (ResNextBlock.init 1024 1024 2048 32 true none)
      ⟨1, 1024, 8, 8⟩ = some ⟨1, 2048, 4, 4⟩ ∧
    ResNextBlock.forward (ResNextBlock.init 2048 1024 2048 32 false none)
      ⟨1, 2048, 4, 4⟩ = some ⟨1, 2048, 4, 4⟩ ∧
    ConvNeXtblock.forward 96 ⟨1, 96, 16, 16⟩ = some ⟨1, 96, 16, 16⟩ ∧
    ConvNeXtblock.forward 192 ⟨1, 192, 8, 8⟩ = some ⟨1, 192, 8, 8⟩ ∧
    ConvNeXtblock.forward 384 ⟨1, 384, 4, 4⟩ = some ⟨1, 384, 4, 4⟩ ∧
    ConvNeXtblock.forward 768 ⟨1, 768, 2, 2⟩ = some ⟨1, 768, 2, 2⟩ := by
  decide


/-- A mismatched residual sum fails. -/
theorem addShape_ne (a b : Shape4) (h : a ≠ b) : addShape a b = none :=
  if_neg h

/-- C4 counterexample: ResBottleNeckBlock.__init__ contains no assertion;
constructing a downsampling block with out_channel = 192 and
in_channel = 64 (divisible, but the ratio 3 is not a power of two)
succeeds, producing an ordinary configuration, and the mismatch surfaces
only at forward time (the residual sum of a 192-channel main path with a
128-channel zero-padded shortcut fails). -/
theorem c4_counterexample :
    ResBottleNeckBlock.init 64 192 true none =
      { in_channel := 64, out_channel := 192, is_downsample := true,
        stride := 2 } ∧
    ResBottleNeckBlock.forward (ResBottleNeckBlock.init 64 192 true none)
      ⟨1, 64, 32, 32⟩ = none := by
  decide

/-- C4 (amended): construction never rejects a channel pair; whenever the
padding loop cannot reproduce out_channel - e.g. the whole family of
ratio-3 pairs (m, 3m), whether the ratio divides (in = m) or not
(in = 2m) - the constructed block's forward on a well-shaped input
fails, i.e. the error is raised at forward time, not at construction
time. -/
theorem c4_amended_forward_time_failure (m : Nat) (hm : 1 ≤ m) :
    ResBottleNeckBlock.forward (ResBottleNeckBlock.init m (3 * m) true none)
      ⟨1, m, 32, 32⟩ = none ∧
    ResBottleNeckBlock.forward
      (ResBottleNeckBlock.init (2 * m) (3 * m) true none)
      ⟨1, 2 * m, 32, 32⟩ = none := by
  have h3 : 3 * m / m = 3 := Nat.mul_div_left 3 hm
  have h32 : 3 * m / (2 * m) = 1 := Nat.div_eq_of_lt_le (by omega) (by omega)
  constructor
  · have hmain : ResBottleNeckBlock.mainShape
        (ResBottleNeckBlock.init m (3 * m) true none) ⟨1, m, 32, 32⟩ =
        some ⟨1, 3 * m, 16, 16⟩ := by
      simp [ResBottleNeckBlock.mainShape, ResBottleNeckBlock.init,
        ResBottleNeckBlock.Cfg.mid_channel, conv2dShape, batchNorm2dShape,
        reluShape, convOut, Nat.mod_one]
    have hsc : ResBottleNeckBlock.shortcutShape
        (ResBottleNeckBlock.init m (3 * m) true none) ⟨1, m, 32, 32⟩ =
        some ⟨1, m * 2, 16, 16⟩ := by
      simp [ResBottleNeckBlock.shortcutShape, ResBottleNeckBlock.init,
        ResBottleNeckBlock.Cfg.shortcutKind,
        ResBottleNeckBlock.identitymapShape, sliceShape, h3]
    have hne : (⟨1, 3 * m, 16, 16⟩ : Shape4) ≠ ⟨1, m * 2, 16, 16⟩ := by
      simp only [ne_eq, Shape4.mk.injEq]
      omega
    simp [ResBottleNeckBlock.forward, hmain, hsc, addShape_ne _ _ hne]
  · have hmain : ResBottleNeckBlock.mainShape
        (ResBottleNeckBlock.init (2 * m) (3 * m) true none)
        ⟨1, 2 * m, 32, 32⟩ = some ⟨1, 3 * m, 16, 16⟩ := by
      simp [ResBottleNeckBlock.mainShape, ResBottleNeckBlock.init,
        ResBottleNeckBlock.Cfg.mid_channel, conv2dShape, batchNorm2dShape,
        reluShape, convOut, Nat.mod_one]
    have hsc : ResBottleNeckBlock.shortcutShape
        (ResBottleNeckBlock.init (2 * m) (3 * m) true none)
        ⟨1, 2 * m, 32, 32⟩ = some ⟨1, 2 * m, 16, 16⟩ := by
      simp [ResBottleNeckBlock.shortcutShape, ResBottleNeckBlock.init,
        ResBottleNeckBlock.Cfg.shortcutKind,
        ResBottleNeckBlock.identitymapShape, sliceShape, h32]
    have hne : (⟨1, 3 * m, 16, 16⟩ : Shape4) ≠ ⟨1, 2 * m, 16, 16⟩ := by
      simp only [ne_eq, Shape4.mk.injEq]
      omega
    simp [ResBottleNeckBlock.forward, hmain, hsc, addShape_ne _ _ hne]

theorem c4_amended_forward_time_failure_witness :
    ResBottleNeckBlock.forward
      (ResBottleNeckBlock.init 64 (3 * 64) true none) ⟨1, 64, 32, 32⟩ =
      none ∧
    ResBottleNeckBlock.forward
      (ResBottleNeckBlock.init (2 * 64) (3 * 64) true none)
      ⟨1, 2 * 64, 32, 32⟩ = none :=
  c4_amended_forward_time_failure 64 (by decide)

/-- C5 counterexample: for the power-of-two ratio 8 (in_channel = 64,
out_channel = 512) the padding loop runs (8 // 2) = 4 times and the
zero-padding shortcut produces 64 * 2^4 = 1024 channels, not the
out_channel = 512 the claim promises. -/
theorem c5_counterexample :
    ResBottleNeckBlock.identitymapShape
      (ResBottleNeckBlock.init 64 512 true (some 1)) ⟨1, 64, 4, 4⟩ =
      ⟨1, 1024, 4, 4⟩ ∧
    (ResBottleNeckBlock.identitymapShape
      (ResBottleNeckBlock.init 64 512 true (some 1)) ⟨1, 64, 4, 4⟩).c ≠ 512 ∧
    512 % 64 = 0 ∧ 512 / 64 = 8 ∧ 2 ^ 3 = 8 := by
  decide

/-- C5 (amended): for a downsampling bottleneck block whose
out/in channel ratio is 1, 2 or 4 (the only ratios the networks use),
the zero-padding shortcut spatially subsamples by the stride (ceiling
division) and outputs exactly out_channel channels; in particular with
in_channel = 64, out_channel = 256, stride = 1 it outputs 256 channels
at unchanged spatial size.  For larger power-of-two ratios the loop
overshoots (see the counterexample). -/
theorem c5_amended_identitymap_channels (inc k s n h w : Nat)
    (hinc : 1 ≤ inc) (hs : 1 ≤ s) (hk : k = 1 ∨ k = 2 ∨ k = 4) :
    ResBottleNeckBlock.identitymapShape
      (ResBottleNeckBlock.init inc (k * inc) true (some s)) ⟨n, inc, h, w⟩ =
      ⟨n, k * inc, (h + s - 1) / s, (w + s - 1) / s⟩ ∧
    ResBottleNeckBlock.identitymapShape
      (ResBottleNeckBlock.init 64 256 true (some 1)) ⟨n, 64, 32, 32⟩ =
      ⟨n, 256, 32, 32⟩ := by
  have hdiv : k * inc / inc = k := Nat.mul_div_left k hinc
  constructor
  · rcases hk with rfl | rfl | rfl <;>
      simp [ResBottleNeckBlock.identitymapShape, ResBottleNeckBlock.init,
        sliceShape, hdiv, Nat.div_self hinc, Shape4.mk.injEq] <;>
      omega
  · simp [ResBottleNeckBlock.identitymapShape, ResBottleNeckBlock.init,
      sliceShape]

theorem c5_amended_identitymap_channels_witness :
    ResBottleNeckBlock.identitymapShape
      (ResBottleNeckBlock.init 64 (4 * 64) true (some 1)) ⟨1, 64, 32, 32⟩ =
      ⟨1, 4 * 64, (32 + 1 - 1) / 1, (32 + 1 - 1) / 1⟩ ∧
    ResBottleNeckBlock.identitymapShape
      (ResBottleNeckBlock.init 64 256 true (some 1)) ⟨1, 64, 32, 32⟩ =
      ⟨1, 256, 32, 32⟩ :=
  c5_amended_identitymap_channels 64 4 1 1 32 32 (by decide) (by decide)
    (Or.inr (Or.inr rfl))

/-- C7 counterexample: the shortcut choice depends only on the
is_downsample flag.  ResBlock(64, 128, is_downsample=False) and
ResNextBlock(64, 128, 256, is_downsample=False) change their channel
count (so output shape differs from input shape) yet store the identity
shortcut, contradicting the claimed "identity exactly when the output
shape equals the input shape". -/
theorem c7_counterexample :
    (ResBlock.init 64 128 false).shortcutKind =
      ResBlock.Shortcut.identity ∧
    (ResBlock.init 64 128 false).out_channel ≠
      (ResBlock.init 64 128 false).in_channel ∧
    ResBlock.mainShape (ResBlock.init 64 128 false) ⟨1, 64, 32, 32⟩ =
      some ⟨1, 128, 32, 32⟩ ∧
    (⟨1, 128, 32, 32⟩ : Shape4) ≠ ⟨1, 64, 32, 32⟩ ∧
    (ResNextBlock.init 64 128 256 32 false none).shortcutKind =
      ResNextBlock.Shortcut.identity ∧
    (ResNextBlock.init 64 128 256 32 false none).out_channel ≠
      (ResNextBlock.init 64 128 256 32 false none).in_channel ∧
    ResNextBlock.mainShape (ResNextBlock.init 64 128 256 32 false none)
      ⟨1, 64, 32, 32⟩ = some ⟨1, 256, 32, 32⟩ := by
  decide

/-- C7 (amended): for ResBlock and ResNextBlock the shortcut is the
identity exactly when is_downsample is false, and a stride-matching 1x1
convolution followed by batch normalization exactly when is_downsample
is true, regardless of whether the channel count changes. -/
theorem c7_amended_shortcut_iff_flag (inc outc innerc card : Nat) (d : Bool)
    (s : Option Nat) :
    ((∀ x, ResBlock.shortcutShape (ResBlock.init inc outc d) x = some x) ↔
      d = false) ∧
    ((∀ x, ResNextBlock.shortcutShape
        (ResNextBlock.init inc innerc outc card d s) x = some x) ↔
      d = false) ∧
    ((ResBlock.init inc outc d).shortcutKind = ResBlock.Shortcut.identity ↔
      d = false) ∧
    ((ResNextBlock.init inc innerc outc card d s).shortcutKind =
      ResNextBlock.Shortcut.identity ↔ d = false) := by
  cases d with
  | false =>
      refine ⟨?_, ?_, ?_, ?_⟩ <;>
        simp [ResBlock.shortcutShape, ResBlock.init,
          ResBlock.Cfg.shortcutKind, ResNextBlock.shortcutShape,
          ResNextBlock.init, ResNextBlock.Cfg.shortcutKind]
  | true =>
      refine ⟨?_, ?_, ?_, ?_⟩
      · constructor
        · intro hall
          have hx := hall ⟨0, inc + 1, 0, 0⟩
          simp [ResBlock.shortcutShape, ResBlock.init,
            ResBlock.Cfg.shortcutKind, ResBlock.Cfg.stride, conv2dShape,
            batchNorm2dShape] at hx
        · intro h
          simp at h
      · constructor
        · intro hall
          have hx := hall ⟨0, inc + 1, 0, 0⟩
          simp [ResNextBlock.shortcutShape, ResNextBlock.init,
            ResNextBlock.Cfg.shortcutKind, conv2dShape,
            batchNorm2dShape] at hx
        · intro h
          simp at h
      · simp [ResBlock.init, ResBlock.Cfg.shortcutKind]
      · simp [ResNextBlock.init, ResNextBlock.Cfg.shortcutKind]

set_option maxHeartbeats 2000000 in
/-- C2: immediately after construction, with the final pointwise
projection's weight and bias zero-initialized, the ConvNeXt block is the
identity: its main path contributes an exactly-zero tensor to the
residual sum, for every depth-wise weight, LayerNorm function, expansion
weight, GELU scalar function, and every input of the block's channel
count with nonempty spatial extent. -/
theorem c2_convnextblock_identity_at_init
    (dww : Nat → Nat → Nat → Nat → ℚ) (dwb : Nat → ℚ)
    (norm : TensorQ → TensorQ)
    (pw1w : Nat → Nat → Nat → Nat → ℚ) (pw1b : Nat → ℚ) (gelu : ℚ → ℚ)
    (x : TensorQ) (hnorm : ∀ t, (norm t).shape = t.shape)
    (hh : 1 ≤ x.s2) (hw : 1 ≤ x.s3) :
    ConvNeXtblockV.forward
      (ConvNeXtblockV.init x.s1 dww dwb norm pw1w pw1b gelu) x = x := by
  have hs0 : ∀ t, (norm t).s0 = t.s0 := fun t => congrArg Shape4.n (hnorm t)
  have hs1 : ∀ t, (norm t).s1 = t.s1 := fun t => congrArg Shape4.c (hnorm t)
  have hs2 : ∀ t, (norm t).s2 = t.s2 := fun t => congrArg Shape4.h (hnorm t)
  have hs3 : ∀ t, (norm t).s3 = t.s3 := fun t => congrArg Shape4.w (hnorm t)
  refine TensorQ.ext ?_ ?_ ?_ ?_ ?_
  · simp [ConvNeXtblockV.forward, ConvNeXtblockV.init, addV, conv2dV, mapV,
      permute0231V, permute0312V, hs0, hs1, hs2, hs3]
  · simp [ConvNeXtblockV.forward, ConvNeXtblockV.init, addV, conv2dV, mapV,
      permute0231V, permute0312V, hs0, hs1, hs2, hs3]
  · simp [ConvNeXtblockV.forward, ConvNeXtblockV.init, addV, conv2dV, mapV,
      permute0231V, permute0312V, hs0, hs1, hs2, hs3, convOut]
    omega
  · simp [ConvNeXtblockV.forward, ConvNeXtblockV.init, addV, conv2dV, mapV,
      permute0231V, permute0312V, hs0, hs1, hs2, hs3, convOut]
    omega
  · funext b c i j
    simp [ConvNeXtblockV.forward, ConvNeXtblockV.init, addV, conv2dV]

theorem c2_convnextblock_identity_at_init_witness :
    ConvNeXtblockV.forward
      (ConvNeXtblockV.init 1 (fun _ _ _ _ => 0) (fun _ => 0) id
        (fun _ _ _ _ => 0) (fun _ => 0) id)
      ⟨1, 1, 1, 1, fun _ _ _ _ => 1⟩ = ⟨1, 1, 1, 1, fun _ _ _ _ => 1⟩ :=
  c2_convnextblock_identity_at_init (fun _ _ _ _ => 0) (fun _ => 0) id
    (fun _ _ _ _ => 0) (fun _ => 0) id ⟨1, 1, 1, 1, fun _ _ _ _ => 1⟩
    (fun t => rfl) (by decide) (by decide)

/-- C6 counterexample: the first bottleneck block of ResBottleNecknet18
and the first grouped block of ResNext are flagged is_downsample=True but
constructed with explicit stride=1; on their in-network 32x32 input they
preserve the spatial resolution instead of halving it. -/
theorem c6_counterexample :
    (ResBottleNeckBlock.init 64 256 true (some 1)).is_downsample = true ∧
    ResBottleNeckBlock.forward (ResBottleNeckBlock.init 64 256 true (some 1))
      ⟨1, 64, 32, 32⟩ = some ⟨1, 256, 32, 32⟩ ∧
    ResBottleNeckBlock.forward (ResBottleNeckBlock.init 64 256 true (some 1))
      ⟨1, 64, 32, 32⟩ ≠ some ⟨1, 256, 16, 16⟩ ∧
    (ResNextBlock.init 64 128 256 32 true (some 1)).is_downsample = true ∧
    ResNextBlock.forward (ResNextBlock.init 64 128 256 32 true (some 1))
      ⟨1, 64, 32, 32⟩ = some ⟨1, 256, 32, 32⟩ ∧
    ResNextBlock.forward (ResNextBlock.init 64 128 256 32 true (some 1))
      ⟨1, 64, 32, 32⟩ ≠ some ⟨1, 256, 16, 16⟩ := by
  decide
